import Mathlib

/-!
Verification development for the `trustworthy_bim` IFC → canonical-asset
pipeline (`ifc_to_canonical.py`, `llm_runner.py`, `validators.py`,
`models.py`).

Modelling conventions:
* Python numeric values are modelled as exact rationals (`ℚ`); the spec's
  numeric statements are phrased up to rational tolerance.
* A raw Python property value is `RawValue`: `none` (Python `None`), a
  number, or a string.
* Python `dict`s keyed by strings are modelled as association lists with
  first-match lookup and replace-or-append insertion (CPython dicts keep
  insertion order and keep the original position on overwrite).
* Python truthiness of an optional string (`None`/`""` falsy) is `truthyS`.
* Python exceptions are modelled with `Except PyExc`; code that cannot
  raise is given a plain (total) type.
* `str.lower`/`str.strip` are modelled for the ASCII range plus the few
  non-ASCII cased characters appearing in the source tables; float
  formatting inside human-readable flag messages is modelled with Lean's
  `toString` (no claim depends on message text).
-/

/-- A Python value as it appears in property maps: `None`, a number, or a
string. -/
inductive RawValue where
  | none : RawValue
  | num : ℚ → RawValue
  | str : String → RawValue
deriving DecidableEq, Repr

/-- Python exception kinds that the modelled code can raise. -/
inductive PyExc where
  | attributeError : PyExc
  | valueError : PyExc
  | typeError : PyExc
deriving DecidableEq, Repr

/-- ASCII lower-casing of a character (plus `Ø → ø`, matching Python's
`str.lower` on the characters used by the source tables). -/
def lowerC (c : Char) : Char :=
  if 'A' ≤ c ∧ c ≤ 'Z' then Char.ofNat (c.toNat + 32)
  else if c = 'Ø' then 'ø'
  else if c = 'Φ' then 'φ'
  else c

/-- Python `str.lower` (ASCII model, see `lowerC`). -/
def pyLower (s : String) : String := String.mk (s.data.map lowerC)

/-- Characters treated as whitespace by Python's `str.strip` / `\s`
(ASCII model). -/
def isSpaceC (c : Char) : Bool :=
  c = ' ' ∨ c = '\t' ∨ c = '\n' ∨ c = '\r' ∨ c = '\x0b' ∨ c = '\x0c'

/-- Python `str.strip` (ASCII-whitespace model). -/
def pyStrip (s : String) : String :=
  String.mk (((s.data.dropWhile isSpaceC).reverse.dropWhile isSpaceC).reverse)

/-- Truthiness of an optional Python string: `None` and `""` are falsy. -/
def truthyS : Option String → Bool
  | Option.none => false
  | Option.some s => !(s == "")

/-- Python `a or b` on optional strings: the first operand if truthy,
otherwise the second operand (whatever it is). -/
def pyOr (a b : Option String) : Option String :=
  if truthyS a then a else b

/-- Python `a or dflt` collapsing to a plain string default. -/
def pyOrStr (a : Option String) (dflt : String) : String :=
  match a with
  | Option.none => dflt
  | Option.some s => if s == "" then dflt else s

/-- First-match lookup in an association list (Python `dict.get`). -/
def tblGet {α : Type} (k : String) : List (String × α) → Option α
  | [] => Option.none
  | (k', v) :: rest => if k = k' then Option.some v else tblGet k rest

/-- Python `dict[k] = v`: replace the value at the first occurrence of the
key, keeping its position; append if the key is absent. -/
def dictInsert {α : Type} (k : String) (v : α) : List (String × α) → List (String × α)
  | [] => [(k, v)]
  | (k', v') :: rest =>
    if k = k' then (k, v) :: rest else (k', v') :: dictInsert k v rest

/-- Does `p` occur as a prefix of `l` (character lists)? -/
def prefixAt : List Char → List Char → Bool
  | [], _ => true
  | _ :: _, [] => false
  | p :: ps, c :: cs => p == c && prefixAt ps cs

/-- Substring containment on character lists. -/
def subListOf (p : List Char) : List Char → Bool
  | [] => p.isEmpty
  | c :: cs => prefixAt p (c :: cs) || subListOf p cs

/-- Python `pat in s` (substring containment). -/
def strContains (s pat : String) : Bool := subListOf pat.data s.data

/-- Python `s.endswith(pat)`. -/
def strEndsWith (s pat : String) : Bool :=
  prefixAt pat.data.reverse s.data.reverse

/-- `NAME_ALIASES` from `ifc_to_canonical.py`: property name → physical
kind. -/
def NAME_ALIASES : List (String × String) :=
  [("length", "length"), ("width", "length"), ("height", "length"),
   ("depth", "length"), ("thickness", "length"), ("diameter", "length"),
   ("dia", "length"), ("radius", "length"),
   ("netarea", "area"), ("grossarea", "area"), ("area", "area"),
   ("netsidearea", "area"), ("crosssectionarea", "area"),
   ("netvolume", "volume"), ("grossvolume", "volume"), ("volume", "volume"),
   ("flow", "vol_flow"), ("flow_rate", "vol_flow"), ("q", "vol_flow"),
   ("airflow", "vol_flow"), ("cfm", "vol_flow"), ("velocity", "velocity"),
   ("power", "power"), ("rated_power", "power"), ("kw", "power"),
   ("power_kw", "power"), ("btu/h", "power"), ("heat_gain", "power"),
   ("heat_loss", "power"),
   ("voltage", "voltage"), ("current", "current"), ("frequency", "frequency"),
   ("power_factor", "unitless"),
   ("temperature", "temperature"), ("temp", "temperature"),
   ("setpoint", "temperature"),
   ("pressure", "pressure"), ("press", "pressure"),
   ("static_pressure", "pressure"),
   ("percent", "percent"), ("percentage", "percent"),
   ("efficiency", "percent"), ("angle", "angle")]

/-- `UNIT_CANON` from `ifc_to_canonical.py`: unit-token synonym table. -/
def UNIT_CANON : List (String × String) :=
  [("m", "m"), ("meter", "m"), ("metre", "m"),
   ("mm", "mm"), ("cm", "cm"), ("in", "in"), ("\"", "in"), ("inch", "in"),
   ("ft", "ft"), ("'", "ft"),
   ("m2", "m²"), ("m^2", "m²"), ("m²", "m²"), ("mm2", "mm²"),
   ("cm2", "cm²"), ("ft2", "ft²"), ("sqft", "ft²"), ("sf", "ft²"),
   ("m3", "m³"), ("m^3", "m³"), ("m³", "m³"), ("l", "L"), ("liter", "L"),
   ("litre", "L"), ("ml", "mL"), ("ft3", "ft³"), ("cf", "ft³"),
   ("cuft", "ft³"), ("gal", "gal"), ("gallon", "gal"),
   ("w", "W"), ("kw", "kW"), ("hp", "hp"), ("btu/h", "BTU/h"),
   ("btuh", "BTU/h"),
   ("pa", "Pa"), ("kpa", "kPa"), ("mpa", "MPa"), ("bar", "bar"),
   ("psi", "psi"),
   ("c", "°C"), ("°c", "°C"), ("f", "°F"), ("°f", "°F"), ("k", "K"),
   ("l/s", "L/s"), ("lps", "L/s"), ("l/sec", "L/s"), ("l/min", "L/min"),
   ("lpm", "L/min"),
   ("m3/h", "m³/h"), ("m3/s", "m³/s"), ("m³/h", "m³/h"), ("m³/s", "m³/s"),
   ("cfm", "CFM"), ("gpm", "GPM"),
   ("m/s", "m/s"), ("rpm", "RPM"), ("hz", "Hz"),
   ("%", "%")]

/-- `UNIT_CANON.get(u.lower(), u)`: canonicalize one unit token. -/
def canonUnit (u : String) : String :=
  (tblGet (pyLower u) UNIT_CANON).getD u

/-- The conditional canonicalization `if u: u = UNIT_CANON.get(u.lower(), u)`
(untruthy units pass through unchanged). -/
def canonIfTruthy (u : Option String) : Option String :=
  if truthyS u then u.map canonUnit else u

/-- `_canon_kind` from `ifc_to_canonical.py`: classify a property name into
a physical kind. -/
def canon_kind (name : String) : String :=
  let n := pyLower (pyStrip name)
  match tblGet n NAME_ALIASES with
  | Option.some k => k
  | Option.none =>
    if strEndsWith n "_mm" ∨ strContains n "(mm)" then "length"
    else if strEndsWith n "_m" ∨ strContains n "(m)" then "length"
    else if strEndsWith n "_cm" then "length"
    else if strEndsWith n "_ft" ∨ strContains n "(ft)" then "length"
    else if strContains n "area" then "area"
    else if strContains n "volume" then "volume"
    else if strContains n "pressure" then "pressure"
    else if strContains n "temperature" ∨ strContains n "temp" then "temperature"
    else if strContains n "flow" ∨ strContains n "cfm" then "vol_flow"
    else if strContains n "velocity" then "velocity"
    else if strContains n "power" ∨ strContains n "btu" then "power"
    else if strContains n "voltage" then "voltage"
    else if strContains n "current" then "current"
    else if strContains n "frequency" then "frequency"
    else if strContains n "percent" ∨ strEndsWith n "_pct" then "percent"
    else "unknown"

/-- Characters accepted by the unit group `[a-zA-Z°/%³²^/]+` of
`_NUM_UNIT_RE`. -/
def isUnitChar (c : Char) : Bool :=
  (('a' ≤ c ∧ c ≤ 'z') ∨ ('A' ≤ c ∧ c ≤ 'Z')) ∨
    c = '°' ∨ c = '/' ∨ c = '%' ∨ c = '³' ∨ c = '²' ∨ c = '^'

/-- Take at most `n` leading digits (`\d{1,n}` greedily). -/
def takeDigitsUpTo : Nat → List Char → List Char × List Char
  | 0, cs => ([], cs)
  | _ + 1, [] => ([], [])
  | n + 1, c :: cs =>
    if c.isDigit then
      let (t, r) := takeDigitsUpTo n cs
      (c :: t, r)
    else ([], c :: cs)

/-- Greedy `(?:,\d{3})*`: comma-separated three-digit groups. -/
def commaGroups : List Char → List Char × List Char
  | ',' :: a :: b :: c :: rest =>
    if a.isDigit && b.isDigit && c.isDigit then
      let (t, r) := commaGroups rest
      (',' :: a :: b :: c :: t, r)
    else ([], ',' :: a :: b :: c :: rest)
  | cs => ([], cs)

/-- Optional `(?:\.\d+)?`: a decimal point followed by at least one digit,
taken greedily. -/
def fracPart : List Char → List Char × List Char
  | '.' :: c :: rest =>
    if c.isDigit then
      ('.' :: c :: rest.takeWhile Char.isDigit, rest.dropWhile Char.isDigit)
    else ([], '.' :: c :: rest)
  | cs => ([], cs)

/-- Match the `num` group of `_NUM_UNIT_RE` at the head of `cs`:
`[-+]?\d{1,3}(?:,\d{3})*(?:\.\d+)?` (the second alternative of the source
regex can only fire when this one does, so it is subsumed).  Returns the
matched text and the rest. -/
def matchNumAt (cs : List Char) : Option (List Char × List Char) :=
  let (sign, cs1) :=
    match cs with
    | c :: rest => if c = '-' ∨ c = '+' then ([c], rest) else (([] : List Char), cs)
    | [] => ([], cs)
  match cs1 with
  | c :: _ =>
    if c.isDigit then
      let (d1, r1) := takeDigitsUpTo 3 cs1
      let (cgs, r2) := commaGroups r1
      let (fr, r3) := fracPart r2
      Option.some (sign ++ d1 ++ cgs ++ fr, r3)
    else Option.none
  | [] => Option.none

/-- `_NUM_UNIT_RE.search`: leftmost match of a number optionally followed
by whitespace and a unit token.  Returns the `num` group text and the
optional `unit` group text. -/
def numUnitSearch : List Char → Option (List Char × Option (List Char))
  | [] => Option.none
  | c :: cs =>
    match matchNumAt (c :: cs) with
    | Option.some (num, rest) =>
      let rest2 := rest.dropWhile isSpaceC
      let u := rest2.takeWhile isUnitChar
      Option.some (num, if u.isEmpty then Option.none else Option.some u)
    | Option.none => numUnitSearch cs

/-- Characters of the diameter-marker class `[øØφphi]` of `_DIAM_RE`
(with `(?i)` case folding). -/
def isDiamChar (c : Char) : Bool :=
  c = 'ø' ∨ c = 'Ø' ∨ c = 'φ' ∨ c = 'Φ' ∨
    c = 'p' ∨ c = 'P' ∨ c = 'h' ∨ c = 'H' ∨ c = 'i' ∨ c = 'I'

/-- Match one of the diameter unit alternatives `mm|cm|in|"|'`
(case-insensitively, in that order) at the head of `cs`. -/
def diamUnitAt (cs : List Char) : Option (List Char) :=
  match cs with
  | a :: b :: _ =>
    if (lowerC a = 'm' ∧ lowerC b = 'm') ∨ (lowerC a = 'c' ∧ lowerC b = 'm') ∨
        (lowerC a = 'i' ∧ lowerC b = 'n') then
      Option.some [a, b]
    else if a = '"' ∨ a = '\'' then Option.some [a]
    else Option.none
  | [a] => if a = '"' ∨ a = '\'' then Option.some [a] else Option.none
  | [] => Option.none

/-- Attempt `_DIAM_RE` at one position: diameter markers, whitespace, a
number `\d+(\.\d+)?`, whitespace, then a required length unit. -/
def diamMatchAt (cs : List Char) : Option (List Char × List Char) :=
  let cs1 := cs.dropWhile isDiamChar
  let cs2 := cs1.dropWhile isSpaceC
  let d := cs2.takeWhile Char.isDigit
  if d.isEmpty then Option.none
  else
    let r1 := cs2.dropWhile Char.isDigit
    let (fr, r2) := fracPart r1
    let r3 := r2.dropWhile isSpaceC
    match diamUnitAt r3 with
    | Option.some u => Option.some (d ++ fr, u)
    | Option.none => Option.none

/-- `_DIAM_RE.search`: leftmost position at which `diamMatchAt` succeeds. -/
def diamSearch : List Char → Option (List Char × List Char)
  | [] => Option.none
  | c :: cs =>
    match diamMatchAt (c :: cs) with
    | Option.some r => Option.some r
    | Option.none => diamSearch cs

/-- Parse the digits of a character list as a natural number (empty ↦ 0). -/
def natOfDigits (cs : List Char) : Nat :=
  cs.foldl (fun acc c => acc * 10 + (c.toNat - '0'.toNat)) 0

/-- Parse `[+-]? digits [. digits]? [(e|E) [+-]? digits]?` as an exact
rational; `Option.none` when the text is not of this shape.  This is the
grammar of Python `float()` restricted to finite decimal literals (the
`inf`/`nan`/underscore forms never arise in this pipeline and are modelled
as unparseable). -/
def ratOfDecimal (cs : List Char) : Option ℚ :=
  let (sgn, cs1) :=
    match cs with
    | '-' :: rest => ((-1 : ℚ), rest)
    | '+' :: rest => ((1 : ℚ), rest)
    | _ => ((1 : ℚ), cs)
  let ip := cs1.takeWhile Char.isDigit
  let cs2 := cs1.dropWhile Char.isDigit
  let (fp, cs3) :=
    match cs2 with
    | '.' :: rest => (rest.takeWhile Char.isDigit, rest.dropWhile Char.isDigit)
    | _ => ([], cs2)
  if ip.isEmpty ∧ fp.isEmpty then Option.none
  else
    let mant : ℚ :=
      sgn * ((natOfDigits ip : ℚ) + (natOfDigits fp : ℚ) / ((10 : ℚ) ^ fp.length))
    match cs3 with
    | [] => Option.some mant
    | 'e' :: rest => ratOfExponent mant rest
    | 'E' :: rest => ratOfExponent mant rest
    | _ => Option.none
where
  /-- Apply an exponent suffix `[+-]? digits` to a mantissa. -/
  ratOfExponent (mant : ℚ) (cs : List Char) : Option ℚ :=
    let (pos, cs1) :=
      match cs with
      | '-' :: rest => (false, rest)
      | '+' :: rest => (true, rest)
      | _ => (true, cs)
    let ds := cs1.takeWhile Char.isDigit
    if ds.isEmpty ∨ ¬(cs1.dropWhile Char.isDigit).isEmpty then Option.none
    else
      let e := natOfDigits ds
      Option.some (if pos then mant * (10 : ℚ) ^ e else mant / (10 : ℚ) ^ e)

/-- `_to_float` applied to a string: strip, remove every comma, then
Python `float()`. -/
def toFloatStr (s : String) : Option ℚ :=
  ratOfDecimal ((pyStrip s).data.filter (fun c => !(c == ',')))

/-- `_to_float` from `ifc_to_canonical.py` on an arbitrary raw value. -/
def to_float : RawValue → Option ℚ
  | RawValue.none => Option.none
  | RawValue.num q => Option.some q
  | RawValue.str s => toFloatStr s

/-- `_parse_num_unit_from_string`: diameter pattern first, then the general
number-plus-unit pattern, else `(_to_float(s), None)`. -/
def parse_num_unit (s : String) : Option ℚ × Option String :=
  let cs := (pyStrip s).data
  match diamSearch cs with
  | Option.some (num, u) =>
    (toFloatStr (String.mk num), Option.some (canonUnit (String.mk u)))
  | Option.none =>
    match numUnitSearch cs with
    | Option.some (num, uOpt) =>
      (toFloatStr (String.mk num), uOpt.map (fun u => canonUnit (String.mk u)))
    | Option.none => (toFloatStr (pyStrip s), Option.none)

/-- Resolve the effective unit: `parsed or explicit or default`, then the
conditional synonym-table canonicalization. -/
def resolveUnit (parsed explicit dflt : Option String) : Option String :=
  canonIfTruthy (pyOr parsed (pyOr explicit dflt))

/-- The conversion stage of `normalize_unit` (the per-kind `if` chain of
`ifc_to_canonical.py`, reached when a numeric value `v` is available).
Returns `(value_norm, unit_norm, reason)`. -/
def convertKind (kind : String) (v : ℚ) (u : Option String) :
    Option ℚ × Option String × String :=
  if kind = "length" then
    if truthyS u = false ∨ u = Option.some "m" then
      (Option.some v, Option.some "m", if truthyS u then "ok" else "assume_m")
    else if u = Option.some "mm" then (Option.some (v / 1000), Option.some "m", "mm_to_m")
    else if u = Option.some "cm" then (Option.some (v / 100), Option.some "m", "cm_to_m")
    else if u = Option.some "in" then (Option.some (v * 0.0254), Option.some "m", "in_to_m")
    else if u = Option.some "ft" then (Option.some (v * 0.3048), Option.some "m", "ft_to_m")
    else (Option.some v, u, "length_noop")
  else if kind = "area" then
    if truthyS u = false ∨ u = Option.some "m²" ∨ u = Option.some "m2" then
      (Option.some v, Option.some "m²", if truthyS u then "ok" else "assume_m2")
    else if u = Option.some "mm²" ∨ u = Option.some "mm2" then
      (Option.some (v / 1000000), Option.some "m²", "mm2_to_m2")
    else if u = Option.some "cm²" ∨ u = Option.some "cm2" then
      (Option.some (v / 10000), Option.some "m²", "cm2_to_m2")
    else if u = Option.some "ft²" ∨ u = Option.some "ft2" ∨ u = Option.some "ft^2" ∨
        u = Option.some "sqft" ∨ u = Option.some "sf" then
      (Option.some (v * 0.09290304), Option.some "m²", "ft2_to_m2")
    else (Option.some v, u, "area_noop")
  else if kind = "volume" then
    if truthyS u = false ∨ u = Option.some "m³" ∨ u = Option.some "m3" then
      (Option.some v, Option.some "m³", if truthyS u then "ok" else "assume_m3")
    else if u = Option.some "L" ∨ u = Option.some "l" then
      (Option.some (v / 1000), Option.some "m³", "L_to_m3")
    else if u = Option.some "mL" then (Option.some (v / 1000000), Option.some "m³", "mL_to_m3")
    else if u = Option.some "ft³" ∨ u = Option.some "ft3" then
      (Option.some (v * 0.0283168466), Option.some "m³", "ft3_to_m3")
    else if u = Option.some "gal" ∨ u = Option.some "gallon" then
      (Option.some (v * 0.00378541178), Option.some "m³", "gal_to_m3")
    else (Option.some v, u, "volume_noop")
  else if kind = "vol_flow" then
    if truthyS u = false then (Option.some v, Option.some "L/s", "assume_Lps")
    else if u = Option.some "L/s" then (Option.some v, Option.some "L/s", "ok")
    else if u = Option.some "L/min" ∨ u = Option.some "lpm" then
      (Option.some (v / 60), Option.some "L/s", "Lpm_to_Lps")
    else if u = Option.some "m³/h" ∨ u = Option.some "m3/h" then
      (Option.some (v * 1000 / 3600), Option.some "L/s", "m3h_to_Lps")
    else if u = Option.some "m³/s" ∨ u = Option.some "m3/s" then
      (Option.some (v * 1000), Option.some "L/s", "m3s_to_Lps")
    else if u = Option.some "CFM" then
      (Option.some (v * 0.47194745), Option.some "L/s", "cfm_to_Lps")
    else if u = Option.some "GPM" then
      (Option.some (v * 0.0630902), Option.some "L/s", "gpm_to_Lps")
    else (Option.some v, u, "flow_noop")
  else if kind = "temperature" then
    if truthyS u = false ∨ u = Option.some "°C" ∨ u = Option.some "C" ∨ u = Option.some "c" then
      (Option.some v, Option.some "°C", if truthyS u then "ok" else "assume_C")
    else if u = Option.some "°F" ∨ u = Option.some "F" ∨ u = Option.some "f" then
      (Option.some ((v - 32) * 5 / 9), Option.some "°C", "F_to_C")
    else if u = Option.some "K" then
      (Option.some (v - 273.15), Option.some "°C", "K_to_C")
    else (Option.some v, u, "temp_noop")
  else if kind = "pressure" then
    if truthyS u = false ∨ u = Option.some "Pa" then
      (Option.some v, Option.some "Pa", if truthyS u then "ok" else "assume_Pa")
    else if u = Option.some "kPa" then (Option.some (v * 1000), Option.some "Pa", "kPa_to_Pa")
    else if u = Option.some "MPa" then
      (Option.some (v * 1000000), Option.some "Pa", "MPa_to_Pa")
    else if u = Option.some "bar" then
      (Option.some (v * 100000), Option.some "Pa", "bar_to_Pa")
    else if u = Option.some "psi" then
      (Option.some (v * 6894.75729), Option.some "Pa", "psi_to_Pa")
    else (Option.some v, u, "press_noop")
  else if kind = "power" then
    if truthyS u = false ∨ u = Option.some "kW" then
      (Option.some v, Option.some "kW", if truthyS u then "ok" else "assume_kW")
    else if u = Option.some "W" then (Option.some (v / 1000), Option.some "kW", "W_to_kW")
    else if u = Option.some "hp" then
      (Option.some (v * 0.745699872), Option.some "kW", "hp_to_kW")
    else if u = Option.some "BTU/h" then
      (Option.some (v * 0.00029307107), Option.some "kW", "BTUh_to_kW")
    else (Option.some v, u, "power_noop")
  else if kind = "voltage" then
    (Option.some v,
      if truthyS u = false ∨ pyLower (u.getD "") = "v" then Option.some "V" else u, "ok")
  else if kind = "current" then
    (Option.some v,
      if truthyS u = false ∨ pyLower (u.getD "") = "a" then Option.some "A" else u, "ok")
  else if kind = "frequency" then
    (Option.some v,
      if truthyS u = false ∨ pyLower (u.getD "") = "hz" then Option.some "Hz" else u, "ok")
  else if kind = "percent" then
    if (0 ≤ v ∧ v ≤ 1) ∧ (u = Option.none ∨ u = Option.some "") then
      (Option.some (v * 100), Option.some "%", "fraction_to_percent")
    else
      (Option.some v, if truthyS u = false then Option.some "%" else u, "ok")
  else if kind = "angle" then
    (Option.some v, if truthyS u = false then Option.some "deg" else u, "ok")
  else (Option.some v, u, "noop")

/-- The value/unit extraction stage of `normalize_unit`: parse a string
value (or take a numeric one), then resolve the effective unit from the
parsed token, the explicit argument and the per-name default. -/
def resolveValue (value : RawValue) (unit defaultU : Option String) :
    Option ℚ × Option String :=
  match value with
  | RawValue.str s =>
    ((parse_num_unit s).1, resolveUnit (parse_num_unit s).2 unit defaultU)
  | RawValue.num q => (Option.some q, resolveUnit Option.none unit defaultU)
  | RawValue.none => (Option.none, resolveUnit Option.none unit defaultU)

/-- The tail of `normalize_unit`: `no_value` when no numeric value was
extracted, otherwise the per-kind conversion. -/
def buildNorm (kind : String) (vu : Option ℚ × Option String) :
    Option ℚ × Option String × String :=
  match vu with
  | (Option.none, u) => (Option.none, u, "no_value")
  | (Option.some v, u) => convertKind kind v u

/-- `normalize_unit` from `ifc_to_canonical.py`.  `dflt` models
`unit_overrides["defaults"].get(name.strip().lower())` (the per-property
default-unit override table).  Returns `(value_norm, unit_norm, reason)`. -/
def normalize_unit (dflt : String → Option String) (name : String)
    (value : RawValue) (unit : Option String) :
    Option ℚ × Option String × String :=
  buildNorm (canon_kind name)
    (resolveValue value unit (dflt (pyLower (pyStrip name))))

/-! ## validators.py -/

/-- `_is_number` from `validators.py` (`ℚ` model has no NaN; int/float
values are `RawValue.num`). -/
def is_number : RawValue → Bool
  | RawValue.num _ => true
  | _ => false

/-- Is an optional property value "missing" in the sense of the membership
test `in (None, "", [])` of `check_required_props` (also covering the `{}`
of `validate_required`; lists/dicts as property values do not arise in the
`RawValue` model)?  `Option.none` is an absent key. -/
def missingVal : Option RawValue → Bool
  | Option.none => true
  | Option.some RawValue.none => true
  | Option.some (RawValue.str s) => s == ""
  | Option.some (RawValue.num _) => false

/-- `required_props_for_class` from `validators.py` (`rp_table.get(cls, [])
or []`; a `None` canonical class finds no key). -/
def required_props_for_class (cls : Option String)
    (rp_table : List (String × List String)) : List String :=
  match cls with
  | Option.none => []
  | Option.some c => (tblGet c rp_table).getD []

/-- `check_required_props` from `validators.py`. -/
def check_required_props (cls : Option String)
    (props_flat : List (String × RawValue))
    (rp_table : List (String × List String)) : List (String × String) :=
  (required_props_for_class cls rp_table).filterMap (fun k =>
    if missingVal (tblGet k props_flat) then
      Option.some ("MISSING_REQUIRED_PROPERTY", k)
    else Option.none)

/-- One row of `props_rows` as consumed by `check_ranges` /
`check_confidence` (`p.get("name")`, `p.get("value_norm")`,
`p.get("confidence")`). -/
structure PropsRow where
  name : Option String
  value_norm : RawValue
  confidence : RawValue
deriving DecidableEq, Repr

/-- A numeric range rule `{"min": …, "max": …}`; either bound may be
absent. -/
structure RangeRule where
  min : Option ℚ
  max : Option ℚ
deriving DecidableEq, Repr

/-- The out-of-range test of `check_ranges`:
`(lo is not None and v < lo) or (hi is not None and v > hi)`. -/
def outOfRange (r : RangeRule) (v : ℚ) : Bool :=
  (match r.min with
   | Option.some lo => v < lo
   | Option.none => false) ||
  (match r.max with
   | Option.some hi => hi < v
   | Option.none => false)

/-- Flag message for one out-of-range row (numeric formatting abstracted
by `toString`; no claim depends on message text). -/
def rangeMsg (nm : String) (v : ℚ) (r : RangeRule) : String :=
  nm ++ "=" ++ toString v ++ " not in [" ++ toString r.min ++ "," ++ toString r.max ++ "]"

/-- The per-row body of the `check_ranges` loop: skip rows whose name is
falsy or not configured, or whose normalized value is not a number;
otherwise flag when the value is out of range. -/
def rangeRowFlag (range_table : List (String × RangeRule)) (p : PropsRow) :
    Option (String × String) :=
  match p.name with
  | Option.none => Option.none
  | Option.some nm =>
    if nm = "" then Option.none
    else
      match tblGet nm range_table with
      | Option.none => Option.none
      | Option.some r =>
        match p.value_norm with
        | RawValue.num v =>
          if outOfRange r v then Option.some ("OUT_OF_RANGE", rangeMsg nm v r)
          else Option.none
        | _ => Option.none

/-- `check_ranges` from `validators.py`. -/
def check_ranges (props_rows : List PropsRow)
    (range_table : List (String × RangeRule)) : List (String × String) :=
  props_rows.filterMap (rangeRowFlag range_table)

/-- `check_confidence` from `validators.py`. -/
def check_confidence (props_rows : List PropsRow) (cls_conf : RawValue)
    (thr_low : ℚ) : List (String × String) :=
  (match cls_conf with
   | RawValue.num c =>
     if c < thr_low then [("LOW_AI_CONF", "class_conf=" ++ toString c)] else []
   | _ => []) ++
  props_rows.filterMap (fun p =>
    match p.confidence with
    | RawValue.num c =>
      if c < thr_low then
        Option.some ("LOW_AI_CONF",
          "prop:" ++ (p.name.getD "<unknown>") ++ " conf=" ++ toString c)
      else Option.none
    | _ => Option.none)

/-- The string-valued fields of a neighbor entry that the pipeline reads. -/
structure NbrFields where
  cls : Option String := Option.none
  rel : Option String := Option.none
  direction : Option String := Option.none
  name : Option String := Option.none
  uid : Option String := Option.none
deriving DecidableEq, Repr

/-- A neighbor list entry: a dict, or a malformed non-dict entry (on which
attribute access raises). -/
inductive Neighbor where
  | dict (fields : NbrFields)
  | nonDict
deriving DecidableEq, Repr

/-- The expected neighbor-class set for a canonical class:
`simple_rules.get(canonical_class, []) or []`. -/
def expectedNeighborSet (cls : Option String)
    (rules : List (String × List String)) : List String :=
  match cls with
  | Option.none => []
  | Option.some c => (tblGet c rules).getD []

/-- The raw `n.get("class")` list of `validate_neighbors` for a list of
dict neighbors (partial: meaningful under an all-dict hypothesis). -/
def nbrGetClasses (neighbors : List Neighbor) : List (Option String) :=
  neighbors.map (fun n =>
    match n with
    | Neighbor.dict f => f.cls
    | Neighbor.nonDict => Option.none)

/-- The observed neighbor-class set of `check_inconsistent_neighbors`:
`{n.get("class") for n in neighbors if isinstance(n, dict) and
n.get("class")}` (kept as a list; only emptiness and disjointness
matter). -/
def observedClasses (neighbors : List Neighbor) : List String :=
  neighbors.filterMap (fun n =>
    match n with
    | Neighbor.dict f =>
      match f.cls with
      | Option.some s => if s = "" then Option.none else Option.some s
      | Option.none => Option.none
    | Neighbor.nonDict => Option.none)

/-- `check_inconsistent_neighbors` from `validators.py`.  The `isinstance`
guard skips non-dict entries, so the body cannot raise (the surrounding
`try`/`except` would, in any case, swallow an error and return no
flags). -/
def check_inconsistent_neighbors (cls : Option String)
    (neighbors : List Neighbor)
    (simple_rules : List (String × List String)) : List (String × String) :=
  let expected := expectedNeighborSet cls simple_rules
  let observed := observedClasses neighbors
  if expected ≠ [] ∧ observed ≠ [] ∧ observed.all (fun c => !(expected.contains c)) then
    [("INCONSISTENT_NEIGHBOR",
      "expected~" ++ toString expected ++ " vs observed~" ++ toString observed)]
  else []

/-! ## ifc_to_canonical.py validation drafts -/

/-- `validate_required` from `ifc_to_canonical.py`: names of required
properties that are absent or empty.  (Its emptiness tuple adds `{}` to
the one of `check_required_props`; both collapse to `missingVal` in the
`RawValue` model.) -/
def validate_required (props_flat : List (String × RawValue))
    (required : List String) : List String :=
  required.filter (fun k => missingVal (tblGet k props_flat))

/-- `validate_ranges` from `ifc_to_canonical.py`. -/
def validate_ranges (prop_name : String) (value_norm : Option ℚ)
    (ranges : List (String × RangeRule)) : Option String :=
  match value_norm with
  | Option.none => Option.none
  | Option.some v =>
    match tblGet prop_name ranges with
    | Option.none => Option.none
    | Option.some r =>
      match r.min with
      | Option.some mn =>
        if v < mn then Option.some ("value " ++ toString v ++ " < min " ++ toString mn)
        else
          match r.max with
          | Option.some mx =>
            if mx < v then Option.some ("value " ++ toString v ++ " > max " ++ toString mx)
            else Option.none
          | Option.none => Option.none
      | Option.none =>
        match r.max with
        | Option.some mx =>
          if mx < v then Option.some ("value " ++ toString v ++ " > max " ++ toString mx)
          else Option.none
        | Option.none => Option.none

/-- `n.get("class")` inside the list comprehension of `validate_neighbors`:
raises `AttributeError` on a non-dict entry. -/
def nbrClass : Neighbor → Except PyExc (Option String)
  | Neighbor.dict f => Except.ok f.cls
  | Neighbor.nonDict => Except.error PyExc.attributeError

/-- The message `f"expected any of {expect}, got {classes}"` of
`validate_neighbors` (list formatting abstracted by `toString`). -/
def neighborFlagMsg (expect : List String) (classes : List (Option String)) :
    String :=
  "expected any of " ++ toString expect ++ ", got " ++ toString classes

/-- The list comprehension `[n.get("class") for n in neighbors]` of
`validate_neighbors`: evaluated left to right, raising at the first
non-dict entry. -/
def getClassList : List Neighbor → Except PyExc (List (Option String))
  | [] => Except.ok []
  | n :: rest =>
    match nbrClass n with
    | Except.error e => Except.error e
    | Except.ok c =>
      match getClassList rest with
      | Except.error e => Except.error e
      | Except.ok cs => Except.ok (c :: cs)

/-- `validate_neighbors` from `ifc_to_canonical.py` (the draft the
orchestrator actually calls): returns an inconsistency message, `none`,
or raises. -/
def validate_neighbors (canonical_class : Option String)
    (neighbors : List Neighbor)
    (neighbor_rules : List (String × List String)) :
    Except PyExc (Option String) :=
  match canonical_class with
  | Option.none => Except.ok Option.none
  | Option.some c =>
    if c = "" ∨ neighbor_rules = [] then Except.ok Option.none
    else
      match tblGet c neighbor_rules with
      | Option.none => Except.ok Option.none
      | Option.some expect =>
        if expect = [] then Except.ok Option.none
        else
          match getClassList neighbors with
          | Except.error e => Except.error e
          | Except.ok classes =>
            if classes.any (fun c? =>
                match c? with
                | Option.some s => expect.contains s
                | Option.none => false) then
              Except.ok Option.none
            else
              Except.ok (Option.some (neighborFlagMsg expect classes))

/-! ## llm_runner.py — delegated classification -/

/-- A parsed JSON value as produced by `json.loads` (Python `None`/`bool`/
number/`str`/`list`/`dict`). -/
inductive Json where
  | null : Json
  | bool : Bool → Json
  | num : ℚ → Json
  | str : String → Json
  | arr : List Json → Json
  | obj : List (String × Json) → Json
deriving BEq, Repr

/-- Python truthiness of a JSON value. -/
def truthyJ : Json → Bool
  | Json.null => false
  | Json.bool b => b
  | Json.num q => !(q == 0)
  | Json.str s => !(s == "")
  | Json.arr xs => !xs.isEmpty
  | Json.obj fs => !fs.isEmpty

/-- `data.get(k, d)`: dictionary access with default; raises
`AttributeError` when `data` is not a dict. -/
def jsonGetD (j : Json) (k : String) (d : Json) : Except PyExc Json :=
  match j with
  | Json.obj fs => Except.ok ((tblGet k fs).getD d)
  | _ => Except.error PyExc.attributeError

/-- Python `float()` applied to a JSON value (`float` grammar on strings,
no comma stripping; `bool` is an `int` subtype; `None`/containers raise
`TypeError`). -/
def pyFloatJ : Json → Except PyExc ℚ
  | Json.num q => Except.ok q
  | Json.bool b => Except.ok (if b then 1 else 0)
  | Json.str s =>
    match ratOfDecimal (pyStrip s).data with
    | Option.some q => Except.ok q
    | Option.none => Except.error PyExc.valueError
  | _ => Except.error PyExc.typeError

/-- The dictionary returned by `class_mapping`.  `canonical_class` is the
raw value of `data.get("canonical_class")` (Python `None` ≙ `Json.null`). -/
structure ClassMapOut where
  canonical_class : Json
  confidence : ℚ
  class_codes : Json
deriving BEq, Repr

/-- The fallback result of `class_mapping`'s `except` branch:
`{"canonical_class": None, "confidence": 0.0, "class_codes": {}}`. -/
def classMapFallback : ClassMapOut :=
  ClassMapOut.mk Json.null 0 (Json.obj [])

/-- The `try` body of the delegated (non-mock) path of `class_mapping`
(`llm_runner.py`): call the model, parse its text as JSON, extract the
three fields.  `loads` models `json.loads`; `llmOut` models the outcome of
`run_llm` (a response text, or any exception the call raised — network
errors, a non-2xx status, or the response envelope missing its text
field). -/
def classMapTry (loads : String → Except PyExc Json)
    (llmOut : Except PyExc String) : Except PyExc ClassMapOut :=
  match llmOut with
  | Except.error e => Except.error e
  | Except.ok raw =>
    match loads raw with
    | Except.error e => Except.error e
    | Except.ok data =>
      match jsonGetD data "canonical_class" Json.null with
      | Except.error e => Except.error e
      | Except.ok c =>
        match jsonGetD data "confidence" (Json.num 0) with
        | Except.error e => Except.error e
        | Except.ok confJ =>
          match pyFloatJ confJ with
          | Except.error e => Except.error e
          | Except.ok conf =>
            match jsonGetD data "class_codes" (Json.obj []) with
            | Except.error e => Except.error e
            | Except.ok codes =>
              Except.ok (ClassMapOut.mk c conf
                (if truthyJ codes then codes else Json.obj []))

/-- `class_mapping`, delegated (non-mock) path: the `try` body with the
catch-all `except` that degrades every failure to `classMapFallback`.
Total by construction — no exception escapes to the caller. -/
def class_mapping_delegated (loads : String → Except PyExc Json)
    (llmOut : Except PyExc String) : ClassMapOut :=
  match classMapTry loads llmOut with
  | Except.ok r => r
  | Except.error _ => classMapFallback

/-! ## Property merge (process_one_pack lines 344–359) -/

/-- One externally-inferred property record
`{"k": …, "v": …, "u": …, "confidence": …}`. -/
structure NewProp where
  k : Option String
  v : RawValue
  u : Option String
  confidence : Option ℚ
deriving DecidableEq, Repr

/-- One merged property entry `{v, u, confidence, source}`. -/
structure MergedObj where
  v : RawValue
  u : Option String
  confidence : ℚ
  source : String
deriving DecidableEq, Repr

/-- Python `str()` of an optional string (`str(None) = "None"`). -/
def pyStrOpt : Option String → String
  | Option.none => "None"
  | Option.some s => s

/-- Seeding of the merge: every known (source-record) property enters with
unit `None`, confidence `1.0` and source tag `"ifc"` (the tag the spec
calls the `known` provenance). -/
def seed_known (known : List (String × RawValue)) : List (String × MergedObj) :=
  known.map (fun p => (p.1, MergedObj.mk p.2 Option.none 1 "ifc"))

/-- Application of the inferred records: each record with a truthy
stringified name overwrites any same-named entry, carrying its own value,
unit and confidence (`float(rec.get("confidence") or 0.0)`) and source tag
`"llm"` (the tag the spec calls the `inferred` provenance). -/
def apply_inferred (m : List (String × MergedObj)) (recs : List NewProp) :
    List (String × MergedObj) :=
  recs.foldl (fun acc rec =>
    let k := pyStrOpt rec.k
    if k = "" then acc
    else dictInsert k (MergedObj.mk rec.v rec.u (rec.confidence.getD 0) "llm") acc) m

/-- The property merge of `process_one_pack`: known properties seeded
first, inferred records applied second. -/
def merge_props (known : List (String × RawValue)) (recs : List NewProp) :
    List (String × MergedObj) :=
  apply_inferred (seed_known known) recs

/-- `flatten_known_props` from `ifc_to_canonical.py`: flatten the nested
property-set map, skipping non-dict property sets and the literal key
`"id"`. -/
inductive PsetVal where
  | dict (kv : List (String × RawValue))
  | other
deriving DecidableEq, Repr

/-- See `PsetVal`. -/
def flatten_known_props (props : List (String × PsetVal)) :
    List (String × RawValue) :=
  props.foldl (fun flat p =>
    match p.2 with
    | PsetVal.dict kv =>
      kv.foldl (fun fl q => if q.1 = "id" then fl else dictInsert q.1 q.2 fl) flat
    | PsetVal.other => flat) []

/-! ## Deterministic asset identifiers: SHA-1 / UUIDv5
(`stable_uuid` in `ifc_to_canonical.py`, `make_asset_id` in `models.py`) -/

/-- UTF-8 encoding of one character. -/
def utf8Char (c : Char) : List Nat :=
  let n := c.toNat
  if n < 128 then [n]
  else if n < 2048 then [192 + n / 64, 128 + n % 64]
  else if n < 65536 then [224 + n / 4096, 128 + (n / 64) % 64, 128 + n % 64]
  else [240 + n / 262144, 128 + (n / 4096) % 64, 128 + (n / 64) % 64, 128 + n % 64]

/-- UTF-8 encoding of a string as a byte list. -/
def utf8Bytes (s : String) : List Nat :=
  s.data.foldr (fun c acc => utf8Char c ++ acc) []

/-- 32-bit left rotation. -/
def rotl (n x : Nat) : Nat :=
  ((x * 2 ^ n) % 2 ^ 32) + (x % 2 ^ 32) / 2 ^ (32 - n)

/-- Big-endian byte decomposition of `n` into `k` bytes. -/
def natToBytesBE (k n : Nat) : List Nat :=
  (List.range k).map (fun i => (n / 2 ^ (8 * (k - 1 - i))) % 256)

/-- Combine bytes into big-endian 32-bit words. -/
def bytesToWords : List Nat → List Nat
  | a :: b :: c :: d :: rest => (((a * 256 + b) * 256 + c) * 256 + d) :: bytesToWords rest
  | _ => []

/-- SHA-1 message schedule: extend 16 words to 80. -/
def sha1Extend (ws : List Nat) : List Nat :=
  (List.range 64).foldl
    (fun w _ =>
      let x := Nat.xor (Nat.xor (w.getD (w.length - 3) 0) (w.getD (w.length - 8) 0))
        (Nat.xor (w.getD (w.length - 14) 0) (w.getD (w.length - 16) 0))
      w ++ [rotl 1 x]) ws

/-- One SHA-1 compression round. -/
def sha1Round (st : Nat × Nat × Nat × Nat × Nat) (iw : Nat × Nat) :
    Nat × Nat × Nat × Nat × Nat :=
  let (a, b, c, d, e) := st
  let (i, w) := iw
  let f :=
    if i < 20 then Nat.lor (Nat.land b c) (Nat.land (2 ^ 32 - 1 - b) d)
    else if i < 40 then Nat.xor (Nat.xor b c) d
    else if i < 60 then Nat.lor (Nat.lor (Nat.land b c) (Nat.land b d)) (Nat.land c d)
    else Nat.xor (Nat.xor b c) d
  let k :=
    if i < 20 then 0x5A827999
    else if i < 40 then 0x6ED9EBA1
    else if i < 60 then 0x8F1BBCDC
    else 0xCA62C1D6
  let temp := (rotl 5 a + f + e + k + w) % 2 ^ 32
  (temp, a, rotl 30 b, c, d)

/-- Process one 64-byte block against the running SHA-1 state. -/
def sha1Block (h : Nat × Nat × Nat × Nat × Nat) (block : List Nat) :
    Nat × Nat × Nat × Nat × Nat :=
  let ws := sha1Extend (bytesToWords block)
  let (h0, h1, h2, h3, h4) := h
  let (a, b, c, d, e) :=
    ((List.range 80).zip ws).foldl sha1Round (h0, h1, h2, h3, h4)
  ((h0 + a) % 2 ^ 32, (h1 + b) % 2 ^ 32, (h2 + c) % 2 ^ 32,
    (h3 + d) % 2 ^ 32, (h4 + e) % 2 ^ 32)

/-- Split a list into chunks of 64 (fuel-driven). -/
def chunks64Go : Nat → List Nat → List (List Nat)
  | 0, _ => []
  | _ + 1, [] => []
  | fuel + 1, l => l.take 64 :: chunks64Go fuel (l.drop 64)

/-- See `chunks64Go`. -/
def chunks64 (l : List Nat) : List (List Nat) := chunks64Go l.length l

/-- SHA-1 padding: `0x80`, zeros to 56 mod 64, then the bit length as
eight big-endian bytes. -/
def sha1Pad (msg : List Nat) : List Nat :=
  let len := msg.length
  let zeros := (119 - len % 64) % 64
  msg ++ [128] ++ List.replicate zeros 0 ++ natToBytesBE 8 (8 * len)

/-- SHA-1 digest (20 bytes) of a byte list. -/
def sha1 (msg : List Nat) : List Nat :=
  let (h0, h1, h2, h3, h4) :=
    (chunks64 (sha1Pad msg)).foldl sha1Block
      (0x67452301, 0xEFCDAB89, 0x98BADCFE, 0x10325476, 0xC3D2E1F0)
  natToBytesBE 4 h0 ++ natToBytesBE 4 h1 ++ natToBytesBE 4 h2 ++
    natToBytesBE 4 h3 ++ natToBytesBE 4 h4

/-- Lower-case hex digit. -/
def hexDigit (n : Nat) : Char :=
  if n < 10 then Char.ofNat (48 + n) else Char.ofNat (87 + n)

/-- Lower-case hex rendering of a byte list. -/
def hexBytes (bs : List Nat) : List Char :=
  bs.foldr (fun b acc => hexDigit (b / 16 % 16) :: hexDigit (b % 16) :: acc) []

/-- Render 16 UUID bytes in the canonical 8-4-4-4-12 dashed form. -/
def uuidStr (bs : List Nat) : String :=
  String.mk (hexBytes (bs.take 4) ++ '-' :: hexBytes ((bs.drop 4).take 2) ++
    '-' :: hexBytes ((bs.drop 6).take 2) ++ '-' :: hexBytes ((bs.drop 8).take 2) ++
    '-' :: hexBytes (bs.drop 10))

/-- `uuid.uuid5`: SHA-1 of namespace bytes plus name bytes, truncated to
16 bytes with the version nibble set to 5 and the RFC 4122 variant bits
set. -/
def uuid5 (ns : List Nat) (name : List Nat) : String :=
  let d := (sha1 (ns ++ name)).take 16
  let fixed := d.mapIdx (fun i b =>
    if i = 6 then b % 16 + 80
    else if i = 8 then b % 64 + 128
    else b)
  uuidStr fixed

/-- The bytes of `uuid.NAMESPACE_DNS`
(`6ba7b810-9dad-11d1-80b4-00c04fd430c8`). -/
def NAMESPACE_DNS : List Nat :=
  [0x6b, 0xa7, 0xb8, 0x10, 0x9d, 0xad, 0x11, 0xd1,
   0x80, 0xb4, 0x00, 0xc0, 0x4f, 0xd4, 0x30, 0xc8]

/-- The bytes of `uuid.NAMESPACE_URL`
(`6ba7b811-9dad-11d1-80b4-00c04fd430c8`). -/
def NAMESPACE_URL : List Nat :=
  [0x6b, 0xa7, 0xb8, 0x11, 0x9d, 0xad, 0x11, 0xd1,
   0x80, 0xb4, 0x00, 0xc0, 0x4f, 0xd4, 0x30, 0xc8]

/-- `stable_uuid` from `ifc_to_canonical.py`:
`uuid5(uuid.NAMESPACE_DNS, f"{source}:{local_id}")`. -/
def stable_uuid (source local_id : String) : String :=
  uuid5 NAMESPACE_DNS (utf8Bytes (source ++ ":" ++ local_id))

/-- `make_asset_id` from `models.py`:
`uuid5(NAMESPACE_URL, f"{source}:{local_id}")`. -/
def make_asset_id (source local_id : String) : String :=
  uuid5 NAMESPACE_URL (utf8Bytes (source ++ ":" ++ local_id))

/-! ## process_one_pack (orchestrator) -/

/-- The entity fields `process_one_pack` reads. -/
structure Entity where
  uid : Option String
  global_id : Option String
  idField : Option String
  ifc_class : Option String
  name : Option String
  properties : List (String × PsetVal)
deriving DecidableEq, Repr

/-- One input record (`pack`): `run_id`, the entity, the neighbor list. -/
structure Pack where
  run_id : Option String
  entity : Entity
  neighbors : List Neighbor
deriving DecidableEq, Repr

/-- One row of `assets.csv` (the location fields, constantly `None`, and
the JSON-serialized `class_codes` column are omitted). -/
structure AssetRow where
  asset_id : String
  source : String
  local_id : String
  ifc_class : Option String
  name : Option String
  canonical_class : Option String
  class_confidence : ℚ
deriving DecidableEq, Repr

/-- One row of `asset_props.csv`. -/
structure PropRow where
  asset_id : String
  name : String
  value_raw : RawValue
  unit_raw : Option String
  value_norm : Option ℚ
  unit_norm : Option String
  confidence : ℚ
  source : String
  te_reason : String
deriving DecidableEq, Repr

/-- One row of `asset_relations.csv`. -/
structure RelRow where
  asset_id : String
  relation : Option String
  direction : Option String
  neighbor_class : Option String
  neighbor_name : Option String
  neighbor_uid : Option String
deriving DecidableEq, Repr

/-- One row of `asset_flags.csv`. -/
structure FlagRow where
  asset_id : String
  flag : String
  reason : String
deriving DecidableEq, Repr

/-- The four row sets one record contributes. -/
structure PackOut where
  assetRow : AssetRow
  propRows : List PropRow
  relRows : List RelRow
  flagRows : List FlagRow
deriving DecidableEq, Repr

/-- A merged property entry together with its normalization results
(`value_raw`/`unit_raw`/`value_norm`/`unit_norm`/`te_reason` written back
by the TE loop of `process_one_pack`). -/
structure NormedObj where
  value_raw : RawValue
  unit_raw : Option String
  value_norm : Option ℚ
  unit_norm : Option String
  te_reason : String
  confidence : ℚ
  source : String
deriving DecidableEq, Repr

/-- The TE loop of `process_one_pack`: normalize every merged property. -/
def normalize_stage (dflt : String → Option String)
    (merged : List (String × MergedObj)) : List (String × NormedObj) :=
  merged.map (fun p =>
    let r := normalize_unit dflt p.1 p.2.v p.2.u
    (p.1, NormedObj.mk p.2.v p.2.u r.1 r.2.1 r.2.2 p.2.confidence p.2.source))

/-- Coerce an optional numeric back into a raw Python value. -/
def rawOfOpt : Option ℚ → RawValue
  | Option.none => RawValue.none
  | Option.some q => RawValue.num q

/-- The relation row built for one neighbor entry; `nb.get(…)` raises on a
non-dict entry. -/
def relRowOf (asset_id : String) : Neighbor → Except PyExc RelRow
  | Neighbor.dict f =>
    Except.ok (RelRow.mk asset_id f.rel f.direction f.cls f.name f.uid)
  | Neighbor.nonDict => Except.error PyExc.attributeError

/-- The relation-row loop of `process_one_pack` (`for nb in neighbors`):
evaluated in order, raising at the first non-dict entry. -/
def relRowsOf (asset_id : String) : List Neighbor → Except PyExc (List RelRow)
  | [] => Except.ok []
  | n :: rest =>
    match relRowOf asset_id n with
    | Except.error e => Except.error e
    | Except.ok r =>
      match relRowsOf asset_id rest with
      | Except.error e => Except.error e
      | Except.ok rs => Except.ok (r :: rs)

/-- `source = pack.get("run_id") or "unknown_run"`. -/
def packSource (pack : Pack) : String := pyOrStr pack.run_id "unknown_run"

/-- `local_id = ent.get("uid") or ent.get("global_id") or ent.get("id") or
"unknown"`. -/
def packLocalId (pack : Pack) : String :=
  pyOrStr (pyOr pack.entity.uid (pyOr pack.entity.global_id pack.entity.idField))
    "unknown"

/-- The required-property names for the record's canonical class:
`(rule_required or {}).get(canonical) or []`. -/
def requiredFor (canonical : Option String)
    (rule_required : List (String × List String)) : List String :=
  match canonical with
  | Option.none => []
  | Option.some c => (tblGet c rule_required).getD []

/-- `process_one_pack` from `ifc_to_canonical.py`.  The classifier outcome
(`canonical`, `class_conf` — already coerced by the caller's
`float(cls_out.get("confidence") or 0.0)`) and the extractor outcome
`new_props` are inputs, as are the rule tables, the default-unit override
table `dflt` and the confidence threshold.  Returns the four row sets, or
the exception that record-processing raised (caught per record by the
CLI driver). -/
def process_one_pack (dflt : String → Option String)
    (canonical : Option String) (class_conf : ℚ) (new_props : List NewProp)
    (rule_required : List (String × List String))
    (rule_ranges : List (String × RangeRule))
    (neighbor_rules : List (String × List String))
    (conf_threshold : ℚ) (pack : Pack) : Except PyExc PackOut :=
  let source := packSource pack
  let local_id := packLocalId pack
  let asset_id := stable_uuid source local_id
  let known := flatten_known_props pack.entity.properties
  let merged := merge_props known new_props
  let normed := normalize_stage dflt merged
  let assetRow := AssetRow.mk asset_id source local_id pack.entity.ifc_class
    pack.entity.name canonical class_conf
  let propRows := normed.map (fun p =>
    PropRow.mk asset_id p.1 p.2.value_raw p.2.unit_raw p.2.value_norm
      p.2.unit_norm p.2.confidence p.2.source p.2.te_reason)
  match relRowsOf asset_id pack.neighbors with
  | Except.error e => Except.error e
  | Except.ok relRows =>
    let confFlags :=
      if class_conf < conf_threshold then
        [FlagRow.mk asset_id "LOW_AI_CONF" ("class_conf=" ++ toString class_conf)]
      else []
    let required := requiredFor canonical rule_required
    let missing :=
      validate_required (normed.map (fun p => (p.1, rawOfOpt p.2.value_norm)))
        required
    let missingFlags := missing.map (fun k =>
      FlagRow.mk asset_id "MISSING_REQUIRED_PROPERTY" k)
    let rangeFlags := normed.filterMap (fun p =>
      (validate_ranges p.1 p.2.value_norm rule_ranges).map (fun m =>
        FlagRow.mk asset_id "OUT_OF_RANGE" (p.1 ++ ": " ++ m)))
    match validate_neighbors canonical pack.neighbors neighbor_rules with
    | Except.error e => Except.error e
    | Except.ok nbrMsg =>
      let nbrFlags :=
        match nbrMsg with
        | Option.some m => [FlagRow.mk asset_id "INCONSISTENT_NEIGHBOR" m]
        | Option.none => []
      Except.ok (PackOut.mk assetRow propRows relRows
        (confFlags ++ missingFlags ++ rangeFlags ++ nbrFlags))

/-- The last inferred record whose stringified name `str(rec.get("k"))`
equals `k` (right-leaning recursion; dict assignment makes the last
same-named record win). -/
def inferredLastAux : List NewProp → String → Option NewProp
  | [], _ => Option.none
  | r :: rest, k =>
    match inferredLastAux rest k with
    | Option.some r2 => Option.some r2
    | Option.none => if pyStrOpt r.k == k then Option.some r else Option.none

/-- The overlap test of `validate_neighbors`:
`any(c in expect for c in classes)`. -/
def anyInExpect (e : List String) (classes : List (Option String)) : Bool :=
  classes.any (fun c =>
    match c with
    | Option.some s => e.contains s
    | Option.none => false)

/-- Is a neighbor entry a dict (`isinstance(n, dict)`)? -/
def isDictNbr : Neighbor → Bool
  | Neighbor.dict _ => true
  | Neighbor.nonDict => false

/-! ## Spec-side predicates (written from the spec's words, for
refinement-style statements) -/

/-- Spec wording of the range check: "flag if the normalized value is
numeric and falls strictly outside the configured `[min, max]` (either
bound may be absent, meaning unbounded on that side)". -/
def specStrictlyOutside (r : RangeRule) (v : ℚ) : Bool :=
  (match r.min with
   | Option.some lo => decide (v < lo)
   | Option.none => false) ||
  (match r.max with
   | Option.some hi => decide (hi < v)
   | Option.none => false)

/-- Spec wording: does `check_ranges` emit a flag for row `p`?  The row
must carry a truthy name that is configured in the range table, a numeric
normalized value, and that value must lie strictly outside the bounds. -/
def specRangeFlagged (range_table : List (String × RangeRule)) (p : PropsRow) :
    Bool :=
  match p.name with
  | Option.none => false
  | Option.some nm =>
    if nm = "" then false
    else
      match tblGet nm range_table with
      | Option.none => false
      | Option.some r =>
        match p.value_norm with
        | RawValue.num v => specStrictlyOutside r v
        | _ => false

/-- Invariant of resolved units: a truthy resolved unit is a fixed point
of the conditional canonicalization, and an untruthy one is exactly the
default. -/
def ResolvedU (dU u : Option String) : Prop :=
  (truthyS u = true → canonIfTruthy u = u) ∧ (truthyS u = false → u = dU)

/-- The conversion stage is idempotent at result `r` for `kind`: the unit
is resolved, and re-converting the result changes neither value nor
unit. -/
def IdemAt (kind : String) (dU : Option String)
    (r : Option ℚ × Option String × String) : Prop :=
  ResolvedU dU r.2.1 ∧
    ∀ q1, r.1 = Option.some q1 →
      (convertKind kind q1 r.2.1).1 = r.1 ∧
      (convertKind kind q1 r.2.1).2.1 = r.2.1

/-! ## Claim theorems -/


/-- **C3.** Unit conversions are correct to rational tolerance on the
spec's examples: `1200 mm → 1.2 m`, `68 °F → 20.0 °C`,
`1 bar → 100000 Pa`, and `1 m³/h → ≈ 0.2778 L/s` (within `10⁻⁴`), each
under a name of the corresponding kind and with no default-unit
override. -/
theorem claim_C3_conversions :
    (normalize_unit (fun _ => Option.none) "length" (RawValue.num 1200)
      (Option.some "mm") = (Option.some (12 / 10), Option.some "m", "mm_to_m")) ∧
    (normalize_unit (fun _ => Option.none) "temperature" (RawValue.num 68)
      (Option.some "°F") = (Option.some 20, Option.some "°C", "F_to_C")) ∧
    (normalize_unit (fun _ => Option.none) "pressure" (RawValue.num 1)
      (Option.some "bar") = (Option.some 100000, Option.some "Pa", "bar_to_Pa")) ∧
    (∃ q : ℚ,
      normalize_unit (fun _ => Option.none) "flow" (RawValue.num 1)
        (Option.some "m³/h") = (Option.some q, Option.some "L/s", "m3h_to_Lps") ∧
      |q - 2778 / 10000| < 1 / 10000) := by
  have h1 : normalize_unit (fun _ => Option.none) "length" (RawValue.num 1200)
      (Option.some "mm") =
      (Option.some ((1200 : ℚ) / 1000), Option.some "m", "mm_to_m") := rfl
  have h2 : normalize_unit (fun _ => Option.none) "temperature" (RawValue.num 68)
      (Option.some "°F") =
      (Option.some (((68 : ℚ) - 32) * 5 / 9), Option.some "°C", "F_to_C") := rfl
  have h3 : normalize_unit (fun _ => Option.none) "pressure" (RawValue.num 1)
      (Option.some "bar") =
      (Option.some ((1 : ℚ) * 100000), Option.some "Pa", "bar_to_Pa") := rfl
  have h4 : normalize_unit (fun _ => Option.none) "flow" (RawValue.num 1)
      (Option.some "m³/h") =
      (Option.some ((1 : ℚ) * 1000 / 3600), Option.some "L/s", "m3h_to_Lps") := rfl
  refine ⟨by rw [h1]; norm_num, by rw [h2]; norm_num, by rw [h3]; norm_num,
    1 * 1000 / 3600, h4, by rw [abs_of_neg (by norm_num)]; norm_num⟩

/-- **C4.** For every property name of kind `percent` with no default-unit
override: a bare numeric value in `[0, 1]` with no unit is scaled by 100
to unit `%` with reason `fraction_to_percent`, while a value strictly
greater than 1 keeps its value unchanged. -/
theorem claim_C4_percent (dflt : String → Option String) (name : String)
    (v : ℚ)
    (hk : canon_kind name = "percent")
    (hd : dflt (pyLower (pyStrip name)) = Option.none) :
    (0 ≤ v → v ≤ 1 →
      normalize_unit dflt name (RawValue.num v) Option.none =
        (Option.some (v * 100), Option.some "%", "fraction_to_percent")) ∧
    (∀ u : Option String, 1 < v →
      (normalize_unit dflt name (RawValue.num v) u).1 = Option.some v) := by
  constructor
  · intro h0 h1
    have he : normalize_unit dflt name (RawValue.num v) Option.none =
        convertKind (canon_kind name) v
          (resolveUnit Option.none Option.none (dflt (pyLower (pyStrip name)))) := rfl
    rw [he, hk, hd]
    show convertKind "percent" v Option.none = _
    simp +decide [convertKind, h0, h1]
  · intro u hv
    have he : normalize_unit dflt name (RawValue.num v) u =
        convertKind (canon_kind name) v
          (resolveUnit Option.none u (dflt (pyLower (pyStrip name)))) := rfl
    rw [he, hk, hd]
    simp +decide only [convertKind, ite_true, ite_false]
    rw [if_neg (fun hc => absurd hv (not_lt.mpr hc.1.2))]

/-- **C4 witness**: `0.42` under the percent-kind name `efficiency`
normalizes to `42 %` with reason `fraction_to_percent`, and `2` passes
through with value unchanged. -/
theorem claim_C4_witness :
    normalize_unit (fun _ => Option.none) "efficiency"
      (RawValue.num (42 / 100)) Option.none =
      (Option.some ((42 / 100 : ℚ) * 100), Option.some "%", "fraction_to_percent") ∧
    (normalize_unit (fun _ => Option.none) "efficiency" (RawValue.num 2)
      Option.none).1 = Option.some 2 := by
  refine ⟨(claim_C4_percent (fun _ => Option.none) "efficiency" (42 / 100)
    (by decide) rfl).1 (by norm_num) (by norm_num), ?_⟩
  exact (claim_C4_percent (fun _ => Option.none) "efficiency" 2
    (by decide) rfl).2 Option.none (by norm_num)

/-- Helper: the per-row flag of `check_ranges` is emitted (with kind
`OUT_OF_RANGE`) exactly when the spec-side predicate holds. -/
theorem rangeRowFlag_fst (tbl : List (String × RangeRule)) (p : PropsRow) :
    (rangeRowFlag tbl p).map Prod.fst =
      if specRangeFlagged tbl p then Option.some "OUT_OF_RANGE" else Option.none := by
  rcases p with ⟨nm, vn, conf⟩
  rcases nm with _ | nm
  · rfl
  · by_cases h : nm = ""
    · simp [rangeRowFlag, specRangeFlagged, h]
    · rcases hg : tblGet nm tbl with _ | r
      · simp [rangeRowFlag, specRangeFlagged, h, hg]
      · rcases vn with _ | v | s
        · simp [rangeRowFlag, specRangeFlagged, h, hg]
        · simp only [rangeRowFlag, specRangeFlagged, hg, if_neg h]
          have ho : outOfRange r v = specStrictlyOutside r v := rfl
          rw [ho]
          cases h2 : specStrictlyOutside r v <;> simp
        · simp [rangeRowFlag, specRangeFlagged, h, hg]

/-- **C5.** The range check emits an `OUT_OF_RANGE` flag exactly for the
rows whose (truthy, configured) name has a numeric normalized value
strictly outside the configured bounds; the draft `validate_ranges` agrees
with the same strictly-outside predicate; and concretely, under
`min=0, max=10` the value `10.0001` is flagged while `10.0` is not. -/
theorem claim_C5_range_check :
    (∀ (rows : List PropsRow) (tbl : List (String × RangeRule)),
      (check_ranges rows tbl).map Prod.fst =
        (rows.filter (specRangeFlagged tbl)).map (fun _ => "OUT_OF_RANGE")) ∧
    (∀ (nm : String) (v : ℚ) (r : RangeRule),
      (validate_ranges nm (Option.some v) [(nm, r)]).isSome = specStrictlyOutside r v) ∧
    (∃ m, check_ranges
      [PropsRow.mk (Option.some "x") (RawValue.num (100001 / 10000)) RawValue.none]
      [("x", RangeRule.mk (Option.some 0) (Option.some 10))] = [("OUT_OF_RANGE", m)]) ∧
    check_ranges [PropsRow.mk (Option.some "x") (RawValue.num 10) RawValue.none]
      [("x", RangeRule.mk (Option.some 0) (Option.some 10))] = [] := by
  refine ⟨?_, ?_, ?_, ?_⟩
  · intro rows tbl
    rw [check_ranges]
    induction rows with
    | nil => rfl
    | cons p rows ih =>
      have hp := rangeRowFlag_fst tbl p
      rw [List.filterMap_cons, List.filter_cons]
      rcases hmap : rangeRowFlag tbl p with _ | fl
      · rw [hmap] at hp
        have hs : specRangeFlagged tbl p = false := by
          cases hs : specRangeFlagged tbl p
          · rfl
          · rw [hs] at hp; simp at hp
        simp [hs, ih]
      · rw [hmap] at hp
        have hs : specRangeFlagged tbl p = true := by
          cases hs : specRangeFlagged tbl p
          · rw [hs] at hp; simp at hp
          · rfl
        rw [hs] at hp
        simp at hp
        simp [hs, ih, hp]
  · intro nm v r
    rcases r with ⟨mn, mx⟩
    rcases mn with _ | lo <;> rcases mx with _ | hi <;>
      simp [validate_ranges, specStrictlyOutside, tblGet] <;> split_ifs <;> simp_all
  · refine ⟨rangeMsg "x" (100001 / 10000) (RangeRule.mk (Option.some 0) (Option.some 10)), ?_⟩
    have hflag : outOfRange (RangeRule.mk (Option.some 0) (Option.some 10))
        (100001 / 10000) = true := by
      simp only [outOfRange, Bool.or_eq_true, decide_eq_true_eq]
      right
      norm_num
    simp [check_ranges, rangeRowFlag, tblGet, hflag]
  · simp [check_ranges, rangeRowFlag, tblGet, outOfRange]

/-- **C7.** In delegated (non-mock) mode, every failure of the external
classifier call degrades to the absent classification
`{canonical_class = None, confidence = 0.0, class_codes = {}}`:
a failing `run_llm` call (network error, bad status, missing response
field), a response that does not parse as JSON, and in general any
exception raised inside the `try` body all yield `classMapFallback`.
`class_mapping_delegated` returns a plain `ClassMapOut` (not an
exception), so no failure propagates to the caller. -/
theorem claim_C7_fail_soft (loads : String → Except PyExc Json)
    (llmOut : Except PyExc String) :
    (∀ e, llmOut = Except.error e →
      class_mapping_delegated loads llmOut = classMapFallback) ∧
    (∀ raw e, llmOut = Except.ok raw → loads raw = Except.error e →
      class_mapping_delegated loads llmOut = classMapFallback) ∧
    (∀ e, classMapTry loads llmOut = Except.error e →
      class_mapping_delegated loads llmOut = classMapFallback) := by
  refine ⟨?_, ?_, ?_⟩
  · intro e h
    simp [class_mapping_delegated, classMapTry, h]
  · intro raw e h1 h2
    simp [class_mapping_delegated, classMapTry, h1, h2]
  · intro e h
    simp [class_mapping_delegated, h]

/-- **C7 witness**: a failing call and a non-JSON response both produce
the fallback at concrete inputs. -/
theorem claim_C7_witness :
    class_mapping_delegated (fun _ => Except.error PyExc.valueError)
      (Except.error PyExc.valueError) = classMapFallback ∧
    class_mapping_delegated (fun _ => Except.error PyExc.valueError)
      (Except.ok "not json") = classMapFallback :=
  ⟨(claim_C7_fail_soft (fun _ => Except.error PyExc.valueError)
      (Except.error PyExc.valueError)).1 PyExc.valueError rfl,
   (claim_C7_fail_soft (fun _ => Except.error PyExc.valueError)
      (Except.ok "not json")).2.1 "not json" PyExc.valueError rfl rfl⟩

/-- Helper: lookup after `dictInsert` at the inserted key. -/
theorem tblGet_dictInsert_self {α : Type} (k : String) (v : α)
    (m : List (String × α)) : tblGet k (dictInsert k v m) = Option.some v := by
  induction m with
  | nil => simp [dictInsert, tblGet]
  | cons p m ih =>
    by_cases h : k = p.1
    · simp [dictInsert, h, tblGet]
    · simp [dictInsert, h, tblGet, ih]

/-- Helper: lookup after `dictInsert` at a different key. -/
theorem tblGet_dictInsert_ne {α : Type} (k k2 : String) (v : α)
    (m : List (String × α)) (h : k ≠ k2) :
    tblGet k (dictInsert k2 v m) = tblGet k m := by
  induction m with
  | nil => simp [dictInsert, tblGet, h]
  | cons p m ih =>
    by_cases h2 : k2 = p.1
    · subst h2
      simp [dictInsert, tblGet, h]
    · by_cases h3 : k = p.1
      · simp [dictInsert, tblGet, h2, h3]
      · simp [dictInsert, tblGet, h2, h3, ih]

/-- Helper: lookup in the seeded merge map. -/
theorem tblGet_seed (known : List (String × RawValue)) (k : String) :
    tblGet k (seed_known known) =
      (tblGet k known).map (fun v => MergedObj.mk v Option.none 1 "ifc") := by
  induction known with
  | nil => rfl
  | cons p l ih =>
    by_cases h : k = p.1
    · simp [seed_known, tblGet, h]
    · simp only [seed_known, List.map_cons, tblGet, if_neg h]
      exact ih

/-- Helper: lookup after applying the inferred records — the last matching
record wins, otherwise the map is unchanged. -/
theorem tblGet_apply_inferred (recs : List NewProp) (k : String)
    (hk : k ≠ "") :
    ∀ m, tblGet k (apply_inferred m recs) =
      match inferredLastAux recs k with
      | Option.some rec =>
        Option.some (MergedObj.mk rec.v rec.u (rec.confidence.getD 0) "llm")
      | Option.none => tblGet k m := by
  induction recs with
  | nil => intro m; rfl
  | cons r rest ih =>
    intro m
    have step : apply_inferred m (r :: rest) =
        apply_inferred (if pyStrOpt r.k = "" then m
          else dictInsert (pyStrOpt r.k)
            (MergedObj.mk r.v r.u (r.confidence.getD 0) "llm") m) rest := rfl
    rw [step, ih]
    rcases haux : inferredLastAux rest k with _ | r2
    · simp only [inferredLastAux, haux]
      by_cases hmatch : (pyStrOpt r.k == k) = true
      · have hkk : pyStrOpt r.k = k := by simpa using hmatch
        rw [if_pos hmatch, hkk, if_neg hk, tblGet_dictInsert_self]
      · rw [if_neg hmatch]
        split_ifs with h2
        · rfl
        · refine tblGet_dictInsert_ne k (pyStrOpt r.k) _ m (fun hkeq => hmatch ?_)
          simp [hkeq]
    · simp only [inferredLastAux, haux]

/-- **C8.** Merge semantics of `process_one_pack`: every known
(source-record) property is seeded with its raw value, no unit, fixed
confidence `1.0` and the known-provenance tag (the literal source string
`"ifc"`); and a name present in both the known map and the inferred
records ends up with the (last) inferred record's value, unit and
confidence under the inferred-provenance tag (the literal source string
`"llm"`). -/
theorem claim_C8_merge_precedence :
    (∀ (known : List (String × RawValue)) (k : String),
      tblGet k (seed_known known) =
        (tblGet k known).map (fun v => MergedObj.mk v Option.none 1 "ifc")) ∧
    (∀ (known : List (String × RawValue)) (recs : List NewProp) (k : String)
        (rec : NewProp),
      k ≠ "" → (tblGet k known).isSome →
      inferredLastAux recs k = Option.some rec →
      tblGet k (merge_props known recs) =
        Option.some (MergedObj.mk rec.v rec.u (rec.confidence.getD 0) "llm")) := by
  refine ⟨fun known k => tblGet_seed known k, ?_⟩
  intro known recs k rec hk _ hlast
  rw [merge_props, tblGet_apply_inferred recs k hk (seed_known known), hlast]

/-- **C8 witness**: with known property `x = 1` and an inferred record for
`x` with value `5`, unit `kW` and confidence `1`, the seeded entry carries
confidence `1`/tag `ifc` and the merged entry carries the inferred
value/unit/confidence with tag `llm`. -/
theorem claim_C8_witness :
    tblGet "x" (seed_known [("x", RawValue.num 1)]) =
      (tblGet "x" [("x", RawValue.num 1)]).map
        (fun v => MergedObj.mk v Option.none 1 "ifc") ∧
    tblGet "x" (merge_props [("x", RawValue.num 1)]
        [NewProp.mk (Option.some "x") (RawValue.num 5) (Option.some "kW")
          (Option.some 1)]) =
      Option.some (MergedObj.mk (RawValue.num 5) (Option.some "kW")
        ((Option.some (1 : ℚ)).getD 0) "llm") :=
  ⟨claim_C8_merge_precedence.1 [("x", RawValue.num 1)] "x",
   claim_C8_merge_precedence.2 [("x", RawValue.num 1)]
     [NewProp.mk (Option.some "x") (RawValue.num 5) (Option.some "kW")
       (Option.some 1)] "x"
     (NewProp.mk (Option.some "x") (RawValue.num 5) (Option.some "kW")
       (Option.some 1)) (by decide) (by decide) (by decide)⟩

/-- Helper: with only dict neighbor entries, the class-comprehension of
`validate_neighbors` succeeds and returns the raw class list. -/
theorem getClassList_ok (nbrs : List Neighbor)
    (hall : ∀ n ∈ nbrs, ∃ f, n = Neighbor.dict f) :
    getClassList nbrs = Except.ok (nbrGetClasses nbrs) := by
  induction nbrs with
  | nil => rfl
  | cons n rest ih =>
    obtain ⟨f, hf⟩ := hall n (List.mem_cons_self n rest)
    subst hf
    have hrest := ih (fun n hn => hall n (List.mem_cons_of_mem _ hn))
    simp [getClassList, nbrClass, hrest, nbrGetClasses]

/-- **C6 counterexample.** The neighbor-consistency check the orchestrator
runs (`validate_neighbors`) flags an entity with an empty neighbor list —
its observed neighbor-class set is empty — as soon as a non-empty rule
entry exists for its class, contradicting the claim that a flag is emitted
only when the observed set is non-empty. -/
theorem claim_C6_counterexample :
    validate_neighbors (Option.some "Pump") [] [("Pump", ["Pipe", "Valve"])] =
      Except.ok (Option.some (neighborFlagMsg ["Pipe", "Valve"] [])) ∧
    observedClasses [] = [] ∧ nbrGetClasses ([] : List Neighbor) = [] :=
  ⟨rfl, rfl, rfl⟩

/-- Helper: if the class comprehension succeeded, the neighbor entries
collapse to their raw class list. -/
theorem getClassList_classes (nbrs : List Neighbor)
    (classes : List (Option String))
    (h : getClassList nbrs = Except.ok classes) :
    nbrGetClasses nbrs = classes := by
  induction nbrs generalizing classes with
  | nil =>
    simp only [getClassList, Except.ok.injEq] at h
    simp [nbrGetClasses, h]
  | cons n rest ih =>
    cases n with
    | nonDict => simp [getClassList, nbrClass] at h
    | dict f =>
      rw [getClassList] at h
      simp only [nbrClass] at h
      rcases hr : getClassList rest with _ | cs
      · rw [hr] at h; exact Except.noConfusion h
      · simp only [hr, Except.ok.injEq] at h
        simp [nbrGetClasses] at ih ⊢
        rw [← h]
        simp [ih cs hr]

/-- **C6 (amended).** `check_inconsistent_neighbors` (`validators.py`) has
exactly the claimed semantics: it flags iff the expected set is non-empty,
the observed set is non-empty, and the two are disjoint; in particular an
entity with no neighbors is never flagged by it.  The orchestrator's
`validate_neighbors`, however, flags exactly when the class is truthy with
a non-empty rule entry and no neighbor's class lies in it — regardless of
whether any neighbor is observed at all. -/
theorem claim_C6_neighbor_check :
    (∀ (cls : Option String) (nbrs : List Neighbor)
        (rules : List (String × List String)),
      check_inconsistent_neighbors cls nbrs rules ≠ [] ↔
        (expectedNeighborSet cls rules ≠ [] ∧ observedClasses nbrs ≠ [] ∧
          ∀ c ∈ observedClasses nbrs, c ∉ expectedNeighborSet cls rules)) ∧
    (∀ (cls : Option String) (rules : List (String × List String)),
      check_inconsistent_neighbors cls [] rules = []) ∧
    (∀ (cls : String) (nbrs : List Neighbor)
        (rules : List (String × List String)) (m : String),
      validate_neighbors (Option.some cls) nbrs rules =
          Except.ok (Option.some m) →
      cls ≠ "" ∧ rules ≠ [] ∧ (tblGet cls rules).getD [] ≠ [] ∧
        anyInExpect ((tblGet cls rules).getD []) (nbrGetClasses nbrs) = false) ∧
    (∀ (cls : String) (nbrs : List Neighbor)
        (rules : List (String × List String)) (e : List String),
      (∀ n ∈ nbrs, ∃ f, n = Neighbor.dict f) →
      cls ≠ "" → tblGet cls rules = Option.some e → e ≠ [] →
      anyInExpect e (nbrGetClasses nbrs) = false →
      validate_neighbors (Option.some cls) nbrs rules =
        Except.ok (Option.some (neighborFlagMsg e (nbrGetClasses nbrs)))) := by
  refine ⟨?_, ?_, ?_, ?_⟩
  · intro cls nbrs rules
    rw [check_inconsistent_neighbors]
    split_ifs with h
    · obtain ⟨h1, h2, h3⟩ := h
      refine iff_of_true (by simp) ⟨h1, h2, fun c hc => ?_⟩
      have hb := List.all_eq_true.mp h3 c hc
      simpa using hb
    · refine iff_of_false (by simp) ?_
      rintro ⟨h1, h2, h3⟩
      apply h
      refine ⟨h1, h2, ?_⟩
      rw [List.all_eq_true]
      intro c hc
      simpa using h3 c hc
  · intro cls rules
    simp [check_inconsistent_neighbors, observedClasses]
  · intro cls nbrs rules m hm
    by_cases h1 : cls = "" ∨ rules = []
    · simp only [validate_neighbors, if_pos h1] at hm
      exact absurd hm (by simp)
    · push_neg at h1
      have hneg : ¬(cls = "" ∨ rules = []) := fun h => h.elim h1.1 h1.2
      rcases hg : tblGet cls rules with _ | e
      · simp only [validate_neighbors, if_neg hneg, hg] at hm
        exact absurd hm (by simp)
      · by_cases hee : e = []
        · simp only [validate_neighbors, if_neg hneg, hg, if_pos hee] at hm
          exact absurd hm (by simp)
        · rcases hcl : getClassList nbrs with e2 | classes
          · simp only [validate_neighbors, if_neg hneg, hg, if_neg hee, hcl] at hm
            exact absurd hm (by simp)
          · by_cases hany : classes.any (fun c =>
                match c with
                | Option.some s => e.contains s
                | Option.none => false) = true
            · simp only [validate_neighbors, if_neg hneg, hg, if_neg hee, hcl,
                hany, reduceIte] at hm
              exact absurd hm (by simp)
            · rw [Bool.not_eq_true] at hany
              have hnbrs := getClassList_classes nbrs classes hcl
              refine ⟨h1.1, h1.2, by simp [hg, hee], ?_⟩
              simp only [hg, Option.getD_some, anyInExpect, hnbrs]
              exact hany
  · intro cls nbrs rules e hall hc hg hee hany
    have hneg : ¬(cls = "" ∨ rules = []) := fun h => h.elim hc (fun hr => by
      rw [hr] at hg; exact Option.noConfusion hg)
    have hcl := getClassList_ok nbrs hall
    have hany2 : (nbrGetClasses nbrs).any (fun c =>
        match c with
        | Option.some s => e.contains s
        | Option.none => false) = false := hany
    simp only [validate_neighbors, if_neg hneg, hg, if_neg hee, hcl, hany2,
      Bool.false_eq_true, if_false]

/-- **C6 witness**: concretely, a `Pump` with one `Duct` neighbor (not in
its expected set `["Pipe"]`) is flagged by `validate_neighbors`, and an
entity with no neighbors is not flagged by
`check_inconsistent_neighbors`. -/
theorem claim_C6_witness :
    validate_neighbors (Option.some "Pump")
      [Neighbor.dict (NbrFields.mk (Option.some "Duct") Option.none
        Option.none Option.none Option.none)]
      [("Pump", ["Pipe"])] =
      Except.ok (Option.some (neighborFlagMsg ["Pipe"]
        (nbrGetClasses [Neighbor.dict (NbrFields.mk (Option.some "Duct")
          Option.none Option.none Option.none Option.none)]))) ∧
    check_inconsistent_neighbors (Option.some "Pump") [] [("Pump", ["Pipe"])]
      = [] := by
  constructor
  · refine claim_C6_neighbor_check.2.2.2 "Pump"
      [Neighbor.dict (NbrFields.mk (Option.some "Duct") Option.none
        Option.none Option.none Option.none)]
      [("Pump", ["Pipe"])] ["Pipe"] ?_ (by decide) (by decide) (by decide)
      (by decide)
    intro n hn
    simp only [List.mem_singleton] at hn
    exact ⟨_, hn⟩
  · exact claim_C6_neighbor_check.2.1 (Option.some "Pump") [("Pump", ["Pipe"])]

/-- **C9 counterexample.** The claim says all four checks never raise on
malformed inputs, including non-dict neighbor entries; but the
orchestrator's `validate_neighbors` raises `AttributeError` on a non-dict
neighbor entry (its class comprehension calls `.get` on the entry with no
`isinstance` guard). -/
theorem claim_C9_counterexample :
    validate_neighbors (Option.some "Pump") [Neighbor.nonDict]
      [("Pump", ["Pipe"])] = Except.error PyExc.attributeError ∧
    getClassList [Neighbor.nonDict] = Except.error PyExc.attributeError :=
  ⟨rfl, rfl⟩

/-- **C9 (amended).** The `validators.py` checks are total on the claimed
malformed inputs, producing no flags rather than raising: non-dict
neighbor entries are skipped by the `isinstance` guard of
`check_inconsistent_neighbors` (so they never affect its result), an
absent canonical class yields no required-property flags, rows whose
normalized value is not a number yield no range flags, and a non-numeric
class confidence contributes no confidence flag.  The orchestrator's
`validate_neighbors` is total whenever the canonical class is absent or
every neighbor entry is a dict — but (see the counterexample) not on a
non-dict entry. -/
theorem claim_C9_validator_totality :
    (∀ (cls : Option String) (nbrs : List Neighbor)
        (rules : List (String × List String)),
      check_inconsistent_neighbors cls nbrs rules =
        check_inconsistent_neighbors cls (nbrs.filter isDictNbr) rules) ∧
    (∀ (props : List (String × RawValue)) (tbl : List (String × List String)),
      check_required_props Option.none props tbl = []) ∧
    (∀ (rows : List PropsRow) (tbl : List (String × RangeRule)),
      (∀ p ∈ rows, is_number p.value_norm = false) →
      check_ranges rows tbl = []) ∧
    (∀ (rows : List PropsRow) (s : String) (thr : ℚ),
      check_confidence rows (RawValue.str s) thr =
        check_confidence rows RawValue.none thr) ∧
    (∀ (nbrs : List Neighbor) (rules : List (String × List String)),
      validate_neighbors Option.none nbrs rules = Except.ok Option.none) ∧
    (∀ (cls : Option String) (nbrs : List Neighbor)
        (rules : List (String × List String)),
      (∀ n ∈ nbrs, ∃ f, n = Neighbor.dict f) →
      ∃ r, validate_neighbors cls nbrs rules = Except.ok r) := by
  refine ⟨?_, ?_, ?_, ?_, ?_, ?_⟩
  · intro cls nbrs rules
    have hobs : observedClasses nbrs = observedClasses (nbrs.filter isDictNbr) := by
      induction nbrs with
      | nil => rfl
      | cons n rest ih =>
        cases n with
        | dict f =>
          rw [List.filter_cons, if_pos (show isDictNbr (Neighbor.dict f) = true from rfl),
            observedClasses, observedClasses, List.filterMap_cons, List.filterMap_cons]
          rcases hc : f.cls with _ | s
          · simp only [hc]; exact ih
          · by_cases hs : s = ""
            · simp only [hc, hs, reduceIte]; exact ih
            · simp only [hc, if_neg hs]; exact congrArg (List.cons s) ih
        | nonDict =>
          rw [List.filter_cons,
            if_neg (show ¬isDictNbr Neighbor.nonDict = true from by simp [isDictNbr]),
            observedClasses, observedClasses, List.filterMap_cons]
          exact ih
    rw [check_inconsistent_neighbors, check_inconsistent_neighbors, hobs]
  · intro props tbl
    rfl
  · intro rows tbl hrows
    rw [check_ranges, List.filterMap_eq_nil_iff]
    intro p hp
    have := hrows p hp
    rw [rangeRowFlag]
    rcases p with ⟨nm, vn, conf⟩
    rcases nm with _ | nm
    · rfl
    · simp only
      split_ifs with h
      · rfl
      · rcases tblGet nm tbl with _ | r
        · rfl
        · rcases vn with _ | v | s
          · rfl
          · simp [is_number] at this
          · rfl
  · intro rows s thr
    rfl
  · intro nbrs rules
    rfl
  · intro cls nbrs rules hall
    cases cls with
    | none => exact ⟨Option.none, rfl⟩
    | some c =>
      by_cases h1 : c = "" ∨ rules = []
      · exact ⟨Option.none, by simp [validate_neighbors, h1]⟩
      · rcases hg : tblGet c rules with _ | e
        · exact ⟨Option.none, by simp only [validate_neighbors, if_neg h1, hg]⟩
        · by_cases hee : e = []
          · exact ⟨Option.none,
              by simp only [validate_neighbors, if_neg h1, hg, if_pos hee]⟩
          · have hcl := getClassList_ok nbrs hall
            by_cases hany : (nbrGetClasses nbrs).any (fun c =>
                match c with
                | Option.some s => e.contains s
                | Option.none => false) = true
            · exact ⟨Option.none, by simp only [validate_neighbors, if_neg h1,
                hg, if_neg hee, hcl, hany, reduceIte]⟩
            · rw [Bool.not_eq_true] at hany
              exact ⟨Option.some (neighborFlagMsg e (nbrGetClasses nbrs)),
                by simp only [validate_neighbors, if_neg h1, hg, if_neg hee,
                  hcl, hany, Bool.false_eq_true, if_false]⟩

/-- **C9 witness**: the totality statements instantiated — a non-dict
entry is ignored by `check_inconsistent_neighbors`, a non-numeric
normalized value produces no range flag, and `validate_neighbors` succeeds
on an all-dict neighbor list. -/
theorem claim_C9_witness :
    check_inconsistent_neighbors (Option.some "Pump") [Neighbor.nonDict]
        [("Pump", ["Pipe"])] =
      check_inconsistent_neighbors (Option.some "Pump")
        ([Neighbor.nonDict].filter isDictNbr) [("Pump", ["Pipe"])] ∧
    check_ranges [PropsRow.mk (Option.some "x") (RawValue.str "n/a")
        RawValue.none] [("x", RangeRule.mk (Option.some 0) (Option.some 10))]
      = [] ∧
    (∃ r, validate_neighbors (Option.some "Pump")
      [Neighbor.dict (NbrFields.mk (Option.some "Pipe") Option.none
        Option.none Option.none Option.none)]
      [("Pump", ["Pipe"])] = Except.ok r) := by
  refine ⟨claim_C9_validator_totality.1 (Option.some "Pump") [Neighbor.nonDict]
      [("Pump", ["Pipe"])], ?_, ?_⟩
  · refine claim_C9_validator_totality.2.2.1
      [PropsRow.mk (Option.some "x") (RawValue.str "n/a") RawValue.none]
      [("x", RangeRule.mk (Option.some 0) (Option.some 10))] ?_
    intro p hp
    simp only [List.mem_singleton] at hp
    rw [hp]
    rfl
  · refine claim_C9_validator_totality.2.2.2.2.2 (Option.some "Pump")
      [Neighbor.dict (NbrFields.mk (Option.some "Pipe") Option.none
        Option.none Option.none Option.none)]
      [("Pump", ["Pipe"])] ?_
    intro n hn
    simp only [List.mem_singleton] at hn
    exact ⟨_, hn⟩
theorem tblGet_mapPairs {α β : Type} (f : String → α → β)
    (l : List (String × α)) (k : String) :
    tblGet k (l.map (fun p => (p.1, f p.1 p.2))) = (tblGet k l).map (f k) := by
  induction l with
  | nil => rfl
  | cons p l ih =>
    by_cases h : k = p.1
    · simp [tblGet, h]
    · simp only [List.map_cons, tblGet, if_neg h]
      exact ih

theorem tblGet_normalize_stage (dflt : String → Option String)
    (merged : List (String × MergedObj)) (k : String) :
    tblGet k (normalize_stage dflt merged) = (tblGet k merged).map (fun o =>
      NormedObj.mk o.v o.u (normalize_unit dflt k o.v o.u).1
        (normalize_unit dflt k o.v o.u).2.1 (normalize_unit dflt k o.v o.u).2.2
        o.confidence o.source) := by
  induction merged with
  | nil => rfl
  | cons p l ih =>
    by_cases h : k = p.1
    · simp [normalize_stage, tblGet, h]
    · simp only [normalize_stage, List.map_cons, tblGet, if_neg h]
      exact ih

theorem tblGet_rawNorm (normed : List (String × NormedObj)) (k : String) :
    tblGet k (normed.map (fun p => (p.1, rawOfOpt p.2.value_norm))) =
      (tblGet k normed).map (fun o => rawOfOpt o.value_norm) := by
  induction normed with
  | nil => rfl
  | cons p l ih =>
    by_cases h : k = p.1
    · simp [tblGet, h]
    · simp only [List.map_cons, tblGet, if_neg h]
      exact ih

/-- **C10.** In the orchestrator, the required-property check is evaluated
over normalized values: a `MISSING_REQUIRED_PROPERTY` flag for name `k` is
emitted exactly when `k` is required for the record's canonical class and
either `k` is absent from the merged property map or its normalized value
is `None` (e.g. free text with no extractable numeral) — a present but
unparseable property is flagged exactly as if it were absent. -/
theorem claim_C10_required_over_normalized (dflt : String → Option String) (canonical : Option String)
    (class_conf : ℚ) (new_props : List NewProp)
    (rule_required : List (String × List String))
    (rule_ranges : List (String × RangeRule))
    (neighbor_rules : List (String × List String))
    (conf_threshold : ℚ) (pack : Pack) (out : PackOut) (k : String)
    (hout : process_one_pack dflt canonical class_conf new_props rule_required
      rule_ranges neighbor_rules conf_threshold pack = Except.ok out) :
    FlagRow.mk (stable_uuid (packSource pack) (packLocalId pack))
        "MISSING_REQUIRED_PROPERTY" k ∈ out.flagRows ↔
      (k ∈ requiredFor canonical rule_required ∧
        (tblGet k (merge_props (flatten_known_props pack.entity.properties)
            new_props) = Option.none ∨
          ∃ o, tblGet k (merge_props (flatten_known_props pack.entity.properties)
            new_props) = Option.some o ∧
            (normalize_unit dflt k o.v o.u).1 = Option.none)) := by
  rcases hrel : relRowsOf (stable_uuid (packSource pack) (packLocalId pack))
      pack.neighbors with e | relRows
  · rw [process_one_pack] at hout
    simp only [hrel] at hout
    exact Except.noConfusion hout
  · rcases hnb : validate_neighbors canonical pack.neighbors neighbor_rules
      with e | nbrMsg
    · rw [process_one_pack] at hout
      simp only [hrel, hnb] at hout
      exact Except.noConfusion hout
    · rw [process_one_pack] at hout
      simp only [hrel, hnb, Except.ok.injEq] at hout
      subst hout
      simp only [List.mem_append]
      have hnotconf : FlagRow.mk (stable_uuid (packSource pack) (packLocalId pack))
          "MISSING_REQUIRED_PROPERTY" k ∉
          (if class_conf < conf_threshold then
            [FlagRow.mk (stable_uuid (packSource pack) (packLocalId pack))
              "LOW_AI_CONF" ("class_conf=" ++ toString class_conf)]
          else []) := by
        split_ifs <;> simp
      have hnotrange : FlagRow.mk (stable_uuid (packSource pack) (packLocalId pack))
          "MISSING_REQUIRED_PROPERTY" k ∉
          (normalize_stage dflt (merge_props
            (flatten_known_props pack.entity.properties) new_props)).filterMap
            (fun p => (validate_ranges p.1 p.2.value_norm rule_ranges).map
              (fun m => FlagRow.mk (stable_uuid (packSource pack)
                (packLocalId pack)) "OUT_OF_RANGE" (p.1 ++ ": " ++ m))) := by
        intro hmem
        obtain ⟨p, _, hfp⟩ := List.mem_filterMap.mp hmem
        rcases hv : validate_ranges p.1 p.2.value_norm rule_ranges with _ | m
        · rw [hv] at hfp; exact Option.noConfusion hfp
        · rw [hv] at hfp; simp at hfp
      have hnotnbr : FlagRow.mk (stable_uuid (packSource pack) (packLocalId pack))
          "MISSING_REQUIRED_PROPERTY" k ∉
          (match nbrMsg with
          | Option.some m => [FlagRow.mk (stable_uuid (packSource pack)
              (packLocalId pack)) "INCONSISTENT_NEIGHBOR" m]
          | Option.none => []) := by
        cases nbrMsg <;> simp
      constructor
      · rintro (((hc | hm) | hr) | hn)
        · exact absurd hc hnotconf
        · obtain ⟨k2, hk2, hk2eq⟩ := List.mem_map.mp hm
          simp only [FlagRow.mk.injEq] at hk2eq
          obtain ⟨-, -, rfl⟩ := hk2eq
          obtain ⟨hreq, hmiss⟩ := List.mem_filter.mp hk2
          refine ⟨hreq, ?_⟩
          rw [tblGet_rawNorm, tblGet_normalize_stage] at hmiss
          rcases hlook : tblGet k2 (merge_props
              (flatten_known_props pack.entity.properties) new_props)
            with _ | o
          · exact Or.inl rfl
          · rw [hlook] at hmiss
            simp only [Option.map] at hmiss
            right
            refine ⟨o, rfl, ?_⟩
            rcases hv : (normalize_unit dflt k2 o.v o.u).1 with _ | q
            · rfl
            · rw [hv] at hmiss
              simp [missingVal, rawOfOpt] at hmiss
        · exact absurd hr hnotrange
        · exact absurd hn hnotnbr
      · rintro ⟨hreq, hcond⟩
        refine Or.inl (Or.inl (Or.inr (List.mem_map.mpr ⟨k, ?_, rfl⟩)))
        simp only [validate_required]
        rw [List.mem_filter]
        refine ⟨hreq, ?_⟩
        rw [tblGet_rawNorm, tblGet_normalize_stage]
        rcases hcond with hnone | ⟨o, ho, hv⟩
        · rw [hnone]; rfl
        · rw [ho]
          simp only [Option.map]
          rw [hv]
          rfl

/-- **C10 witness**: an entity of class `X` whose required property
`Length` is present with the unparseable text `"n/a"` (normalized value
`None`) receives the `MISSING_REQUIRED_PROPERTY` flag. -/
theorem claim_C10_witness :
    FlagRow.mk (stable_uuid "r" "e1") "MISSING_REQUIRED_PROPERTY" "Length" ∈
      (PackOut.mk
        (AssetRow.mk (stable_uuid "r" "e1") "r" "e1" Option.none Option.none
          (Option.some "X") 1)
        [PropRow.mk (stable_uuid "r" "e1") "Length" (RawValue.str "n/a")
          Option.none Option.none Option.none 1 "ifc" "no_value"]
        []
        [FlagRow.mk (stable_uuid "r" "e1") "MISSING_REQUIRED_PROPERTY"
          "Length"]).flagRows := by
  refine (claim_C10_required_over_normalized (fun _ => Option.none)
    (Option.some "X") 1 [] [("X", ["Length"])] [] [] 0
    (Pack.mk (Option.some "r")
      (Entity.mk (Option.some "e1") Option.none Option.none Option.none
        Option.none [("Pset", PsetVal.dict [("Length", RawValue.str "n/a")])])
      [])
    (PackOut.mk
      (AssetRow.mk (stable_uuid "r" "e1") "r" "e1" Option.none Option.none
        (Option.some "X") 1)
      [PropRow.mk (stable_uuid "r" "e1") "Length" (RawValue.str "n/a")
        Option.none Option.none Option.none 1 "ifc" "no_value"]
      []
      [FlagRow.mk (stable_uuid "r" "e1") "MISSING_REQUIRED_PROPERTY"
        "Length"]) "Length" rfl).mpr ⟨by decide, Or.inr ?_⟩
  refine ⟨MergedObj.mk (RawValue.str "n/a") Option.none 1 "ifc", by decide, rfl⟩

set_option maxRecDepth 1000000 in
/-- **C1 counterexample.** The repository has two asset-identifier
functions for the same `(source, local_id)` pair: the pipeline's
`stable_uuid` hashes under `uuid.NAMESPACE_DNS` while `models.py`'s
`make_asset_id` hashes under `uuid.NAMESPACE_URL`, so the two
"identifier computations" do **not** agree with each other: on
`("a", "b")` they produce different UUIDs (each value matches CPython's
`uuid.uuid5` output). -/
theorem claim_C1_counterexample :
    stable_uuid "a" "b" = "c9d6b581-bfe3-5415-aff0-be1ededc9647" ∧
    make_asset_id "a" "b" = "b45a9d79-db1e-526a-9c11-593809785ca4" ∧
    (stable_uuid "a" "b" == make_asset_id "a" "b") = false := by
  refine ⟨by decide, by decide, by decide⟩

/-- **C1 (amended).** The asset identifier is a deterministic function of
the `(source, local_id)` pair alone: any two packs with the same resolved
source and local identifier get the same asset identifier regardless of
their other fields, and processing the same record twice with the same
classifier/extractor outcomes yields identical output rows.  (The two
identifier functions `stable_uuid` and `make_asset_id` themselves
disagree — see the counterexample — because they hash under different
UUID namespaces.) -/
theorem claim_C1_asset_id_deterministic :
    (∀ p1 p2 : Pack, packSource p1 = packSource p2 →
      packLocalId p1 = packLocalId p2 →
      stable_uuid (packSource p1) (packLocalId p1) =
        stable_uuid (packSource p2) (packLocalId p2)) ∧
    (∀ (s l : String),
      stable_uuid s l = uuid5 NAMESPACE_DNS (utf8Bytes (s ++ ":" ++ l)) ∧
      make_asset_id s l = uuid5 NAMESPACE_URL (utf8Bytes (s ++ ":" ++ l))) ∧
    (∀ (dflt : String → Option String) (canonical : Option String)
        (class_conf : ℚ) (new_props : List NewProp)
        (rule_required : List (String × List String))
        (rule_ranges : List (String × RangeRule))
        (neighbor_rules : List (String × List String))
        (conf_threshold : ℚ) (pack : Pack),
      process_one_pack dflt canonical class_conf new_props rule_required
          rule_ranges neighbor_rules conf_threshold pack =
        process_one_pack dflt canonical class_conf new_props rule_required
          rule_ranges neighbor_rules conf_threshold pack) := by
  refine ⟨fun p1 p2 h1 h2 => ?_, fun s l => ⟨rfl, rfl⟩,
    fun _ _ _ _ _ _ _ _ _ => rfl⟩
  rw [h1, h2]

/-- **C1 witness**: two packs agreeing on `run_id` and `uid` but with
different display names receive the same asset identifier. -/
theorem claim_C1_witness :
    stable_uuid
      (packSource (Pack.mk (Option.some "r")
        (Entity.mk (Option.some "e1") Option.none Option.none Option.none
          (Option.some "name A") []) []))
      (packLocalId (Pack.mk (Option.some "r")
        (Entity.mk (Option.some "e1") Option.none Option.none Option.none
          (Option.some "name A") []) [])) =
    stable_uuid
      (packSource (Pack.mk (Option.some "r")
        (Entity.mk (Option.some "e1") Option.none Option.none Option.none
          (Option.some "name B") []) []))
      (packLocalId (Pack.mk (Option.some "r")
        (Entity.mk (Option.some "e1") Option.none Option.none Option.none
          (Option.some "name B") []) [])) :=
  claim_C1_asset_id_deterministic.1
    (Pack.mk (Option.some "r")
      (Entity.mk (Option.some "e1") Option.none Option.none Option.none
        (Option.some "name A") []) [])
    (Pack.mk (Option.some "r")
      (Entity.mk (Option.some "e1") Option.none Option.none Option.none
        (Option.some "name B") []) [])
    rfl rfl
theorem tblGet_prop {α : Type} (P : α → Prop) (l : List (String × α))
    (k : String) (v : α) (hall : ∀ p ∈ l, P p.2) (h : tblGet k l = Option.some v) :
    P v := by
  induction l with
  | nil => exact Option.noConfusion h
  | cons p rest ih =>
    rw [tblGet] at h
    split_ifs at h with hk
    · cases h
      exact hall p (List.mem_cons_self p rest)
    · exact ih (fun q hq => hall q (List.mem_cons_of_mem p hq)) h

theorem canonUnit_idem (s : String) : canonUnit (canonUnit s) = canonUnit s := by
  rcases h : tblGet (pyLower s) UNIT_CANON with _ | v
  · have hs : canonUnit s = s := by rw [canonUnit, h]; rfl
    rw [hs]
    exact hs
  · have hs : canonUnit s = v := by rw [canonUnit, h]; rfl
    rw [hs]
    exact tblGet_prop (fun w => canonUnit w = w) UNIT_CANON (pyLower s) v
      (by decide) h

theorem canonUnit_ne_empty (s : String) (hs : s ≠ "") : canonUnit s ≠ "" := by
  rcases h : tblGet (pyLower s) UNIT_CANON with _ | v
  · rw [canonUnit, h]
    exact hs
  · rw [canonUnit, h]
    exact tblGet_prop (fun w => w ≠ "") UNIT_CANON (pyLower s) v (by decide) h

/-- Helper: a truthy optional string is a non-empty `some`. -/
theorem truthy_exists (u : Option String) (h : truthyS u = true) :
    ∃ s, u = Option.some s ∧ s ≠ "" := by
  cases u with
  | none => simp [truthyS] at h
  | some s =>
    refine ⟨s, rfl, ?_⟩
    simpa [truthyS] using h

/-- Helper: an untruthy `pyOr` collapses to its second operand. -/
theorem pyOr_untruthy (a b : Option String) (h : truthyS (pyOr a b) = false) :
    pyOr a b = b := by
  rw [pyOr]
  split_ifs with ht
  · rw [pyOr, if_pos ht] at h
    rw [ht] at h
    exact Bool.noConfusion h
  · rfl

/-- Helper: the unit produced by `resolveUnit` satisfies `ResolvedU`. -/
theorem resolveUnit_resolved (pu unit dU : Option String) :
    ResolvedU dU (resolveUnit pu unit dU) := by
  rw [resolveUnit]
  cases ht : truthyS (pyOr pu (pyOr unit dU)) with
  | false =>
    rw [canonIfTruthy, if_neg (by rw [ht]; exact Bool.noConfusion)]
    constructor
    · intro h
      rw [ht] at h
      exact Bool.noConfusion h
    · intro _
      have h1 := pyOr_untruthy pu (pyOr unit dU) ht
      rw [h1] at ht ⊢
      exact pyOr_untruthy unit dU ht
  | true =>
    obtain ⟨s, hs, hne⟩ := truthy_exists _ ht
    rw [canonIfTruthy, if_pos ht, hs]
    have hcne := canonUnit_ne_empty s hne
    constructor
    · intro _
      rw [Option.map_some']
      rw [canonIfTruthy, if_pos (by simp [truthyS, hcne])]
      rw [Option.map_some', canonUnit_idem]
    · intro hfalse
      rw [Option.map_some'] at hfalse
      simp [truthyS, hcne] at hfalse

/-- Helper: re-resolving an already-resolved unit (with no parsed token)
returns it unchanged. -/
theorem resolved_fix (dU u : Option String) (h : ResolvedU dU u) :
    resolveUnit Option.none u dU = u := by
  rw [resolveUnit]
  have h0 : pyOr Option.none (pyOr u dU) = pyOr u dU := by
    rw [pyOr]
    simp [truthyS]
  rw [h0]
  cases ht : truthyS u with
  | true =>
    rw [pyOr, if_pos ht]
    exact h.1 ht
  | false =>
    have hu := h.2 ht
    rw [pyOr, if_neg (by rw [ht]; exact Bool.noConfusion), ← hu,
      canonIfTruthy, if_neg (by rw [ht]; exact Bool.noConfusion)]

/-- Helper: the unit of the extraction stage is resolved. -/
theorem resolveValue_resolved (value : RawValue) (unit dU : Option String) :
    ResolvedU dU (resolveValue value unit dU).2 := by
  cases value with
  | none => exact resolveUnit_resolved Option.none unit dU
  | num q => exact resolveUnit_resolved Option.none unit dU
  | str s => exact resolveUnit_resolved (parse_num_unit s).2 unit dU
theorem resolved_of_fixed (dU : Option String) (c : String)
    (hc : canonUnit c = c) (hne : (c == "") = false) :
    ResolvedU dU (Option.some c) := by
  constructor
  · intro _
    rw [canonIfTruthy, if_pos (by simp [truthyS, hne]), Option.map_some', hc]
  · intro h
    rw [truthyS, hne] at h
    exact Bool.noConfusion h

theorem idem_const (kind : String) (dU : Option String) (v : ℚ) (c : String)
    (r : String) (hc : canonUnit c = c) (hne : (c == "") = false)
    (hsecond : ∀ q1, (convertKind kind q1 (Option.some c)).1 = Option.some q1 ∧
      (convertKind kind q1 (Option.some c)).2.1 = Option.some c) :
    IdemAt kind dU (Option.some v, Option.some c, r) := by
  refine ⟨resolved_of_fixed dU c hc hne, fun q1 hq1 => ?_⟩
  cases hq1
  exact hsecond v

theorem convertFix_length (q : ℚ) (u dU : Option String)
    (hu : ResolvedU dU u) : IdemAt "length" dU (convertKind "length" q u) := by
  by_cases h1 : truthyS u = false ∨ u = Option.some "m"
  · have hr : convertKind "length" q u = (Option.some q, Option.some "m",
        if truthyS u = true then "ok" else "assume_m") := by
      simp +decide only [convertKind, ite_true, ite_false]
      rw [if_pos h1]
    rw [hr]
    exact idem_const "length" dU q "m" _ (by decide) (by decide)
      (fun q1 => ⟨rfl, rfl⟩)
  · by_cases h2 : u = Option.some "mm"
    · have hr : convertKind "length" q u =
          (Option.some (q / 1000), Option.some "m", "mm_to_m") := by
        simp +decide only [convertKind, ite_true, ite_false]
        rw [if_neg h1, if_pos h2]
      rw [hr]
      exact idem_const "length" dU (q / 1000) "m" _ (by decide) (by decide)
        (fun q1 => ⟨rfl, rfl⟩)
    · by_cases h3 : u = Option.some "cm"
      · have hr : convertKind "length" q u =
            (Option.some (q / 100), Option.some "m", "cm_to_m") := by
          simp +decide only [convertKind, ite_true, ite_false]
          rw [if_neg h1, if_neg h2, if_pos h3]
        rw [hr]
        exact idem_const "length" dU (q / 100) "m" _ (by decide) (by decide)
          (fun q1 => ⟨rfl, rfl⟩)
      · by_cases h4 : u = Option.some "in"
        · have hr : convertKind "length" q u =
              (Option.some (q * 0.0254), Option.some "m", "in_to_m") := by
            simp +decide only [convertKind, ite_true, ite_false]
            rw [if_neg h1, if_neg h2, if_neg h3, if_pos h4]
          rw [hr]
          exact idem_const "length" dU (q * 0.0254) "m" _ (by decide)
            (by decide) (fun q1 => ⟨rfl, rfl⟩)
        · by_cases h5 : u = Option.some "ft"
          · have hr : convertKind "length" q u =
                (Option.some (q * 0.3048), Option.some "m", "ft_to_m") := by
              simp +decide only [convertKind, ite_true, ite_false]
              rw [if_neg h1, if_neg h2, if_neg h3, if_neg h4, if_pos h5]
            rw [hr]
            exact idem_const "length" dU (q * 0.3048) "m" _ (by decide)
              (by decide) (fun q1 => ⟨rfl, rfl⟩)
          · have hr : convertKind "length" q u =
                (Option.some q, u, "length_noop") := by
              simp +decide only [convertKind, ite_true, ite_false]
              rw [if_neg h1, if_neg h2, if_neg h3, if_neg h4, if_neg h5]
            rw [hr]
            refine ⟨hu, fun q1 hq1 => ?_⟩
            cases hq1
            have hr2 : convertKind "length" q u =
                (Option.some q, u, "length_noop") := hr
            rw [show (Option.some q, u, "length_noop").2.1 = u from rfl]
            have hr3 : convertKind "length" q u = (Option.some q, u, "length_noop") := hr
            exact ⟨by rw [hr3], by rw [hr3]⟩
theorem convertFix_area (q : ℚ) (u dU : Option String)
    (hu : ResolvedU dU u) : IdemAt "area" dU (convertKind "area" q u) := by
  by_cases h1 : truthyS u = false ∨ u = Option.some "m²" ∨ u = Option.some "m2"
  · have hr : convertKind "area" q u =
        (Option.some (q), Option.some "m²", if truthyS u = true then "ok" else "assume_m2") := by
      simp +decide only [convertKind, ite_true, ite_false]
      rw [if_pos h1]
    rw [hr]
    exact idem_const "area" dU (q) "m²" _ (by decide) (by decide)
      (fun q1 => ⟨rfl, rfl⟩)
  ·
    by_cases h2 : u = Option.some "mm²" ∨ u = Option.some "mm2"
    · have hr : convertKind "area" q u =
          (Option.some (q / 1000000), Option.some "m²", "mm2_to_m2") := by
        simp +decide only [convertKind, ite_true, ite_false]
        rw [if_neg h1, if_pos h2]
      rw [hr]
      exact idem_const "area" dU (q / 1000000) "m²" _ (by decide) (by decide)
        (fun q1 => ⟨rfl, rfl⟩)
    ·
      by_cases h3 : u = Option.some "cm²" ∨ u = Option.some "cm2"
      · have hr : convertKind "area" q u =
            (Option.some (q / 10000), Option.some "m²", "cm2_to_m2") := by
          simp +decide only [convertKind, ite_true, ite_false]
          rw [if_neg h1, if_neg h2, if_pos h3]
        rw [hr]
        exact idem_const "area" dU (q / 10000) "m²" _ (by decide) (by decide)
          (fun q1 => ⟨rfl, rfl⟩)
      ·
        by_cases h4 : u = Option.some "ft²" ∨ u = Option.some "ft2" ∨ u = Option.some "ft^2" ∨ u = Option.some "sqft" ∨ u = Option.some "sf"
        · have hr : convertKind "area" q u =
              (Option.some (q * 0.09290304), Option.some "m²", "ft2_to_m2") := by
            simp +decide only [convertKind, ite_true, ite_false]
            rw [if_neg h1, if_neg h2, if_neg h3, if_pos h4]
          rw [hr]
          exact idem_const "area" dU (q * 0.09290304) "m²" _ (by decide) (by decide)
            (fun q1 => ⟨rfl, rfl⟩)
        ·
          have hr : convertKind "area" q u = (Option.some q, u, "area_noop") := by
            simp +decide only [convertKind, ite_true, ite_false]
            rw [if_neg h1, if_neg h2, if_neg h3, if_neg h4]
          rw [hr]
          refine ⟨hu, fun q1 hq1 => ?_⟩
          cases hq1
          exact ⟨by rw [hr], by rw [hr]⟩

theorem convertFix_volume (q : ℚ) (u dU : Option String)
    (hu : ResolvedU dU u) : IdemAt "volume" dU (convertKind "volume" q u) := by
  by_cases h1 : truthyS u = false ∨ u = Option.some "m³" ∨ u = Option.some "m3"
  · have hr : convertKind "volume" q u =
        (Option.some (q), Option.some "m³", if truthyS u = true then "ok" else "assume_m3") := by
      simp +decide only [convertKind, ite_true, ite_false]
      rw [if_pos h1]
    rw [hr]
    exact idem_const "volume" dU (q) "m³" _ (by decide) (by decide)
      (fun q1 => ⟨rfl, rfl⟩)
  ·
    by_cases h2 : u = Option.some "L" ∨ u = Option.some "l"
    · have hr : convertKind "volume" q u =
          (Option.some (q / 1000), Option.some "m³", "L_to_m3") := by
        simp +decide only [convertKind, ite_true, ite_false]
        rw [if_neg h1, if_pos h2]
      rw [hr]
      exact idem_const "volume" dU (q / 1000) "m³" _ (by decide) (by decide)
        (fun q1 => ⟨rfl, rfl⟩)
    ·
      by_cases h3 : u = Option.some "mL"
      · have hr : convertKind "volume" q u =
            (Option.some (q / 1000000), Option.some "m³", "mL_to_m3") := by
          simp +decide only [convertKind, ite_true, ite_false]
          rw [if_neg h1, if_neg h2, if_pos h3]
        rw [hr]
        exact idem_const "volume" dU (q / 1000000) "m³" _ (by decide) (by decide)
          (fun q1 => ⟨rfl, rfl⟩)
      ·
        by_cases h4 : u = Option.some "ft³" ∨ u = Option.some "ft3"
        · have hr : convertKind "volume" q u =
              (Option.some (q * 0.0283168466), Option.some "m³", "ft3_to_m3") := by
            simp +decide only [convertKind, ite_true, ite_false]
            rw [if_neg h1, if_neg h2, if_neg h3, if_pos h4]
          rw [hr]
          exact idem_const "volume" dU (q * 0.0283168466) "m³" _ (by decide) (by decide)
            (fun q1 => ⟨rfl, rfl⟩)
        ·
          by_cases h5 : u = Option.some "gal" ∨ u = Option.some "gallon"
          · have hr : convertKind "volume" q u =
                (Option.some (q * 0.00378541178), Option.some "m³", "gal_to_m3") := by
              simp +decide only [convertKind, ite_true, ite_false]
              rw [if_neg h1, if_neg h2, if_neg h3, if_neg h4, if_pos h5]
            rw [hr]
            exact idem_const "volume" dU (q * 0.00378541178) "m³" _ (by decide) (by decide)
              (fun q1 => ⟨rfl, rfl⟩)
          ·
            have hr : convertKind "volume" q u = (Option.some q, u, "volume_noop") := by
              simp +decide only [convertKind, ite_true, ite_false]
              rw [if_neg h1, if_neg h2, if_neg h3, if_neg h4, if_neg h5]
            rw [hr]
            refine ⟨hu, fun q1 hq1 => ?_⟩
            cases hq1
            exact ⟨by rw [hr], by rw [hr]⟩

theorem convertFix_vol_flow (q : ℚ) (u dU : Option String)
    (hu : ResolvedU dU u) : IdemAt "vol_flow" dU (convertKind "vol_flow" q u) := by
  by_cases h1 : truthyS u = false
  · have hr : convertKind "vol_flow" q u =
        (Option.some (q), Option.some "L/s", "assume_Lps") := by
      simp +decide only [convertKind, ite_true, ite_false]
      rw [if_pos h1]
    rw [hr]
    exact idem_const "vol_flow" dU (q) "L/s" _ (by decide) (by decide)
      (fun q1 => ⟨rfl, rfl⟩)
  ·
    by_cases h2 : u = Option.some "L/s"
    · have hr : convertKind "vol_flow" q u =
          (Option.some (q), Option.some "L/s", "ok") := by
        simp +decide only [convertKind, ite_true, ite_false]
        rw [if_neg h1, if_pos h2]
      rw [hr]
      exact idem_const "vol_flow" dU (q) "L/s" _ (by decide) (by decide)
        (fun q1 => ⟨rfl, rfl⟩)
    ·
      by_cases h3 : u = Option.some "L/min" ∨ u = Option.some "lpm"
      · have hr : convertKind "vol_flow" q u =
            (Option.some (q / 60), Option.some "L/s", "Lpm_to_Lps") := by
          simp +decide only [convertKind, ite_true, ite_false]
          rw [if_neg h1, if_neg h2, if_pos h3]
        rw [hr]
        exact idem_const "vol_flow" dU (q / 60) "L/s" _ (by decide) (by decide)
          (fun q1 => ⟨rfl, rfl⟩)
      ·
        by_cases h4 : u = Option.some "m³/h" ∨ u = Option.some "m3/h"
        · have hr : convertKind "vol_flow" q u =
              (Option.some (q * 1000 / 3600), Option.some "L/s", "m3h_to_Lps") := by
            simp +decide only [convertKind, ite_true, ite_false]
            rw [if_neg h1, if_neg h2, if_neg h3, if_pos h4]
          rw [hr]
          exact idem_const "vol_flow" dU (q * 1000 / 3600) "L/s" _ (by decide) (by decide)
            (fun q1 => ⟨rfl, rfl⟩)
        ·
          by_cases h5 : u = Option.some "m³/s" ∨ u = Option.some "m3/s"
          · have hr : convertKind "vol_flow" q u =
                (Option.some (q * 1000), Option.some "L/s", "m3s_to_Lps") := by
              simp +decide only [convertKind, ite_true, ite_false]
              rw [if_neg h1, if_neg h2, if_neg h3, if_neg h4, if_pos h5]
            rw [hr]
            exact idem_const "vol_flow" dU (q * 1000) "L/s" _ (by decide) (by decide)
              (fun q1 => ⟨rfl, rfl⟩)
          ·
            by_cases h6 : u = Option.some "CFM"
            · have hr : convertKind "vol_flow" q u =
                  (Option.some (q * 0.47194745), Option.some "L/s", "cfm_to_Lps") := by
                simp +decide only [convertKind, ite_true, ite_false]
                rw [if_neg h1, if_neg h2, if_neg h3, if_neg h4, if_neg h5, if_pos h6]
              rw [hr]
              exact idem_const "vol_flow" dU (q * 0.47194745) "L/s" _ (by decide) (by decide)
                (fun q1 => ⟨rfl, rfl⟩)
            ·
              by_cases h7 : u = Option.some "GPM"
              · have hr : convertKind "vol_flow" q u =
                    (Option.some (q * 0.0630902), Option.some "L/s", "gpm_to_Lps") := by
                  simp +decide only [convertKind, ite_true, ite_false]
                  rw [if_neg h1, if_neg h2, if_neg h3, if_neg h4, if_neg h5, if_neg h6, if_pos h7]
                rw [hr]
                exact idem_const "vol_flow" dU (q * 0.0630902) "L/s" _ (by decide) (by decide)
                  (fun q1 => ⟨rfl, rfl⟩)
              ·
                have hr : convertKind "vol_flow" q u = (Option.some q, u, "flow_noop") := by
                  simp +decide only [convertKind, ite_true, ite_false]
                  rw [if_neg h1, if_neg h2, if_neg h3, if_neg h4, if_neg h5, if_neg h6, if_neg h7]
                rw [hr]
                refine ⟨hu, fun q1 hq1 => ?_⟩
                cases hq1
                exact ⟨by rw [hr], by rw [hr]⟩

theorem convertFix_temperature (q : ℚ) (u dU : Option String)
    (hu : ResolvedU dU u) : IdemAt "temperature" dU (convertKind "temperature" q u) := by
  by_cases h1 : truthyS u = false ∨ u = Option.some "°C" ∨ u = Option.some "C" ∨ u = Option.some "c"
  · have hr : convertKind "temperature" q u =
        (Option.some (q), Option.some "°C", if truthyS u = true then "ok" else "assume_C") := by
      simp +decide only [convertKind, ite_true, ite_false]
      rw [if_pos h1]
    rw [hr]
    exact idem_const "temperature" dU (q) "°C" _ (by decide) (by decide)
      (fun q1 => ⟨rfl, rfl⟩)
  ·
    by_cases h2 : u = Option.some "°F" ∨ u = Option.some "F" ∨ u = Option.some "f"
    · have hr : convertKind "temperature" q u =
          (Option.some ((q - 32) * 5 / 9), Option.some "°C", "F_to_C") := by
        simp +decide only [convertKind, ite_true, ite_false]
        rw [if_neg h1, if_pos h2]
      rw [hr]
      exact idem_const "temperature" dU ((q - 32) * 5 / 9) "°C" _ (by decide) (by decide)
        (fun q1 => ⟨rfl, rfl⟩)
    ·
      by_cases h3 : u = Option.some "K"
      · have hr : convertKind "temperature" q u =
            (Option.some (q - 273.15), Option.some "°C", "K_to_C") := by
          simp +decide only [convertKind, ite_true, ite_false]
          rw [if_neg h1, if_neg h2, if_pos h3]
        rw [hr]
        exact idem_const "temperature" dU (q - 273.15) "°C" _ (by decide) (by decide)
          (fun q1 => ⟨rfl, rfl⟩)
      ·
        have hr : convertKind "temperature" q u = (Option.some q, u, "temp_noop") := by
          simp +decide only [convertKind, ite_true, ite_false]
          rw [if_neg h1, if_neg h2, if_neg h3]
        rw [hr]
        refine ⟨hu, fun q1 hq1 => ?_⟩
        cases hq1
        exact ⟨by rw [hr], by rw [hr]⟩

theorem convertFix_pressure (q : ℚ) (u dU : Option String)
    (hu : ResolvedU dU u) : IdemAt "pressure" dU (convertKind "pressure" q u) := by
  by_cases h1 : truthyS u = false ∨ u = Option.some "Pa"
  · have hr : convertKind "pressure" q u =
        (Option.some (q), Option.some "Pa", if truthyS u = true then "ok" else "assume_Pa") := by
      simp +decide only [convertKind, ite_true, ite_false]
      rw [if_pos h1]
    rw [hr]
    exact idem_const "pressure" dU (q) "Pa" _ (by decide) (by decide)
      (fun q1 => ⟨rfl, rfl⟩)
  ·
    by_cases h2 : u = Option.some "kPa"
    · have hr : convertKind "pressure" q u =
          (Option.some (q * 1000), Option.some "Pa", "kPa_to_Pa") := by
        simp +decide only [convertKind, ite_true, ite_false]
        rw [if_neg h1, if_pos h2]
      rw [hr]
      exact idem_const "pressure" dU (q * 1000) "Pa" _ (by decide) (by decide)
        (fun q1 => ⟨rfl, rfl⟩)
    ·
      by_cases h3 : u = Option.some "MPa"
      · have hr : convertKind "pressure" q u =
            (Option.some (q * 1000000), Option.some "Pa", "MPa_to_Pa") := by
          simp +decide only [convertKind, ite_true, ite_false]
          rw [if_neg h1, if_neg h2, if_pos h3]
        rw [hr]
        exact idem_const "pressure" dU (q * 1000000) "Pa" _ (by decide) (by decide)
          (fun q1 => ⟨rfl, rfl⟩)
      ·
        by_cases h4 : u = Option.some "bar"
        · have hr : convertKind "pressure" q u =
              (Option.some (q * 100000), Option.some "Pa", "bar_to_Pa") := by
            simp +decide only [convertKind, ite_true, ite_false]
            rw [if_neg h1, if_neg h2, if_neg h3, if_pos h4]
          rw [hr]
          exact idem_const "pressure" dU (q * 100000) "Pa" _ (by decide) (by decide)
            (fun q1 => ⟨rfl, rfl⟩)
        ·
          by_cases h5 : u = Option.some "psi"
          · have hr : convertKind "pressure" q u =
                (Option.some (q * 6894.75729), Option.some "Pa", "psi_to_Pa") := by
              simp +decide only [convertKind, ite_true, ite_false]
              rw [if_neg h1, if_neg h2, if_neg h3, if_neg h4, if_pos h5]
            rw [hr]
            exact idem_const "pressure" dU (q * 6894.75729) "Pa" _ (by decide) (by decide)
              (fun q1 => ⟨rfl, rfl⟩)
          ·
            have hr : convertKind "pressure" q u = (Option.some q, u, "press_noop") := by
              simp +decide only [convertKind, ite_true, ite_false]
              rw [if_neg h1, if_neg h2, if_neg h3, if_neg h4, if_neg h5]
            rw [hr]
            refine ⟨hu, fun q1 hq1 => ?_⟩
            cases hq1
            exact ⟨by rw [hr], by rw [hr]⟩

theorem convertFix_power (q : ℚ) (u dU : Option String)
    (hu : ResolvedU dU u) : IdemAt "power" dU (convertKind "power" q u) := by
  by_cases h1 : truthyS u = false ∨ u = Option.some "kW"
  · have hr : convertKind "power" q u =
        (Option.some (q), Option.some "kW", if truthyS u = true then "ok" else "assume_kW") := by
      simp +decide only [convertKind, ite_true, ite_false]
      rw [if_pos h1]
    rw [hr]
    exact idem_const "power" dU (q) "kW" _ (by decide) (by decide)
      (fun q1 => ⟨rfl, rfl⟩)
  ·
    by_cases h2 : u = Option.some "W"
    · have hr : convertKind "power" q u =
          (Option.some (q / 1000), Option.some "kW", "W_to_kW") := by
        simp +decide only [convertKind, ite_true, ite_false]
        rw [if_neg h1, if_pos h2]
      rw [hr]
      exact idem_const "power" dU (q / 1000) "kW" _ (by decide) (by decide)
        (fun q1 => ⟨rfl, rfl⟩)
    ·
      by_cases h3 : u = Option.some "hp"
      · have hr : convertKind "power" q u =
            (Option.some (q * 0.745699872), Option.some "kW", "hp_to_kW") := by
          simp +decide only [convertKind, ite_true, ite_false]
          rw [if_neg h1, if_neg h2, if_pos h3]
        rw [hr]
        exact idem_const "power" dU (q * 0.745699872) "kW" _ (by decide) (by decide)
          (fun q1 => ⟨rfl, rfl⟩)
      ·
        by_cases h4 : u = Option.some "BTU/h"
        · have hr : convertKind "power" q u =
              (Option.some (q * 0.00029307107), Option.some "kW", "BTUh_to_kW") := by
            simp +decide only [convertKind, ite_true, ite_false]
            rw [if_neg h1, if_neg h2, if_neg h3, if_pos h4]
          rw [hr]
          exact idem_const "power" dU (q * 0.00029307107) "kW" _ (by decide) (by decide)
            (fun q1 => ⟨rfl, rfl⟩)
        ·
          have hr : convertKind "power" q u = (Option.some q, u, "power_noop") := by
            simp +decide only [convertKind, ite_true, ite_false]
            rw [if_neg h1, if_neg h2, if_neg h3, if_neg h4]
          rw [hr]
          refine ⟨hu, fun q1 hq1 => ?_⟩
          cases hq1
          exact ⟨by rw [hr], by rw [hr]⟩
theorem convertKind_percent_at_percent (q1 : ℚ) :
    (convertKind "percent" q1 (Option.some "%")).1 = Option.some q1 ∧
    (convertKind "percent" q1 (Option.some "%")).2.1 = Option.some "%" := by
  constructor
  · simp +decide only [convertKind, ite_true, ite_false]
    simp
  · simp +decide only [convertKind, ite_true, ite_false]
    simp

theorem convertFix_voltage (q : ℚ) (u dU : Option String)
    (hu : ResolvedU dU u) : IdemAt "voltage" dU (convertKind "voltage" q u) := by
  by_cases h1 : truthyS u = false ∨ pyLower (u.getD "") = "v"
  · have hr : convertKind "voltage" q u = (Option.some q, Option.some "V", "ok") := by
      simp +decide only [convertKind, ite_true, ite_false]
      rw [if_pos h1]
    rw [hr]
    exact idem_const "voltage" dU q "V" _ (by decide) (by decide)
      (fun q1 => ⟨rfl, rfl⟩)
  · have hr : convertKind "voltage" q u = (Option.some q, u, "ok") := by
      simp +decide only [convertKind, ite_true, ite_false]
      rw [if_neg h1]
    rw [hr]
    refine ⟨hu, fun q1 hq1 => ?_⟩
    cases hq1
    exact ⟨by rw [hr], by rw [hr]⟩

theorem convertFix_current (q : ℚ) (u dU : Option String)
    (hu : ResolvedU dU u) : IdemAt "current" dU (convertKind "current" q u) := by
  by_cases h1 : truthyS u = false ∨ pyLower (u.getD "") = "a"
  · have hr : convertKind "current" q u = (Option.some q, Option.some "A", "ok") := by
      simp +decide only [convertKind, ite_true, ite_false]
      rw [if_pos h1]
    rw [hr]
    exact idem_const "current" dU q "A" _ (by decide) (by decide)
      (fun q1 => ⟨rfl, rfl⟩)
  · have hr : convertKind "current" q u = (Option.some q, u, "ok") := by
      simp +decide only [convertKind, ite_true, ite_false]
      rw [if_neg h1]
    rw [hr]
    refine ⟨hu, fun q1 hq1 => ?_⟩
    cases hq1
    exact ⟨by rw [hr], by rw [hr]⟩

theorem convertFix_frequency (q : ℚ) (u dU : Option String)
    (hu : ResolvedU dU u) : IdemAt "frequency" dU (convertKind "frequency" q u) := by
  by_cases h1 : truthyS u = false ∨ pyLower (u.getD "") = "hz"
  · have hr : convertKind "frequency" q u = (Option.some q, Option.some "Hz", "ok") := by
      simp +decide only [convertKind, ite_true, ite_false]
      rw [if_pos h1]
    rw [hr]
    exact idem_const "frequency" dU q "Hz" _ (by decide) (by decide)
      (fun q1 => ⟨rfl, rfl⟩)
  · have hr : convertKind "frequency" q u = (Option.some q, u, "ok") := by
      simp +decide only [convertKind, ite_true, ite_false]
      rw [if_neg h1]
    rw [hr]
    refine ⟨hu, fun q1 hq1 => ?_⟩
    cases hq1
    exact ⟨by rw [hr], by rw [hr]⟩

theorem convertFix_angle (q : ℚ) (u dU : Option String)
    (hu : ResolvedU dU u) : IdemAt "angle" dU (convertKind "angle" q u) := by
  by_cases h1 : truthyS u = false
  · have hr : convertKind "angle" q u = (Option.some q, Option.some "deg", "ok") := by
      simp +decide only [convertKind, ite_true, ite_false]
      rw [if_pos h1]
    rw [hr]
    exact idem_const "angle" dU q "deg" _ (by decide) (by decide)
      (fun q1 => ⟨rfl, rfl⟩)
  · have hr : convertKind "angle" q u = (Option.some q, u, "ok") := by
      simp +decide only [convertKind, ite_true, ite_false]
      rw [if_neg h1]
    rw [hr]
    refine ⟨hu, fun q1 hq1 => ?_⟩
    cases hq1
    exact ⟨by rw [hr], by rw [hr]⟩

theorem convertFix_percent (q : ℚ) (u dU : Option String)
    (hu : ResolvedU dU u) : IdemAt "percent" dU (convertKind "percent" q u) := by
  by_cases h1 : (0 ≤ q ∧ q ≤ 1) ∧ (u = Option.none ∨ u = Option.some "")
  · have hr : convertKind "percent" q u =
        (Option.some (q * 100), Option.some "%", "fraction_to_percent") := by
      simp +decide only [convertKind, ite_true, ite_false]
      rw [if_pos h1]
    rw [hr]
    exact idem_const "percent" dU (q * 100) "%" _ (by decide) (by decide)
      (fun q1 => convertKind_percent_at_percent q1)
  · have hr : convertKind "percent" q u =
        (Option.some q, if truthyS u = false then Option.some "%" else u, "ok") := by
      simp +decide only [convertKind, ite_true, ite_false]
      rw [if_neg h1]
    by_cases ht : truthyS u = false
    · have hr2 : convertKind "percent" q u = (Option.some q, Option.some "%", "ok") := by
        rw [hr, if_pos ht]
      rw [hr2]
      exact idem_const "percent" dU q "%" _ (by decide) (by decide)
        (fun q1 => convertKind_percent_at_percent q1)
    · have hr2 : convertKind "percent" q u = (Option.some q, u, "ok") := by
        rw [hr, if_neg ht]
      rw [hr2]
      refine ⟨hu, fun q1 hq1 => ?_⟩
      cases hq1
      exact ⟨by rw [hr2], by rw [hr2]⟩

theorem convertKind_idem (kind : String) (q : ℚ) (u dU : Option String)
    (hu : ResolvedU dU u) : IdemAt kind dU (convertKind kind q u) := by
  by_cases hk1 : kind = "length"
  · subst hk1; exact convertFix_length q u dU hu
  by_cases hk2 : kind = "area"
  · subst hk2; exact convertFix_area q u dU hu
  by_cases hk3 : kind = "volume"
  · subst hk3; exact convertFix_volume q u dU hu
  by_cases hk4 : kind = "vol_flow"
  · subst hk4; exact convertFix_vol_flow q u dU hu
  by_cases hk5 : kind = "temperature"
  · subst hk5; exact convertFix_temperature q u dU hu
  by_cases hk6 : kind = "pressure"
  · subst hk6; exact convertFix_pressure q u dU hu
  by_cases hk7 : kind = "power"
  · subst hk7; exact convertFix_power q u dU hu
  by_cases hk8 : kind = "voltage"
  · subst hk8; exact convertFix_voltage q u dU hu
  by_cases hk9 : kind = "current"
  · subst hk9; exact convertFix_current q u dU hu
  by_cases hk10 : kind = "frequency"
  · subst hk10; exact convertFix_frequency q u dU hu
  by_cases hk11 : kind = "percent"
  · subst hk11; exact convertFix_percent q u dU hu
  by_cases hk12 : kind = "angle"
  · subst hk12; exact convertFix_angle q u dU hu
  have hr : convertKind kind q u = (Option.some q, u, "noop") := by
    rw [convertKind]
    rw [if_neg hk1, if_neg hk2, if_neg hk3, if_neg hk4, if_neg hk5, if_neg hk6,
      if_neg hk7, if_neg hk8, if_neg hk9, if_neg hk10, if_neg hk11, if_neg hk12]
  rw [hr]
  refine ⟨hu, fun q1 hq1 => ?_⟩
  cases hq1
  exact ⟨by rw [hr], by rw [hr]⟩
theorem buildNorm_idem (kind : String) (dU : Option String)
    (vu : Option ℚ × Option String) (hu : ResolvedU dU vu.2) :
    (buildNorm kind (resolveValue (rawOfOpt (buildNorm kind vu).1)
        (buildNorm kind vu).2.1 dU)).1 = (buildNorm kind vu).1 ∧
    (buildNorm kind (resolveValue (rawOfOpt (buildNorm kind vu).1)
        (buildNorm kind vu).2.1 dU)).2.1 = (buildNorm kind vu).2.1 := by
  rcases vu with ⟨ov, u0⟩
  cases ov with
  | none =>
    have key : buildNorm kind (resolveValue
          (rawOfOpt (buildNorm kind (Option.none, u0)).1)
          (buildNorm kind (Option.none, u0)).2.1 dU)
        = (Option.none, resolveUnit Option.none u0 dU, "no_value") := rfl
    rw [key, resolved_fix dU u0 hu]
    exact ⟨rfl, rfl⟩
  | some v =>
    have hB : buildNorm kind (Option.some v, u0) = convertKind kind v u0 := rfl
    obtain ⟨hru, hsecond⟩ := convertKind_idem kind v u0 dU hu
    rcases hc : (convertKind kind v u0).1 with _ | q1
    · rw [hB, hc]
      have key : buildNorm kind (resolveValue (rawOfOpt Option.none)
            (convertKind kind v u0).2.1 dU)
          = (Option.none,
              resolveUnit Option.none (convertKind kind v u0).2.1 dU,
              "no_value") := rfl
      rw [key, resolved_fix dU ((convertKind kind v u0).2.1) hru]
      exact ⟨rfl, rfl⟩
    · rw [hB, hc]
      have key : buildNorm kind (resolveValue (rawOfOpt (Option.some q1))
            (convertKind kind v u0).2.1 dU)
          = convertKind kind q1
              (resolveUnit Option.none (convertKind kind v u0).2.1 dU) := rfl
      rw [key, resolved_fix dU ((convertKind kind v u0).2.1) hru]
      have h2 := hsecond q1 hc
      exact ⟨h2.1.trans hc, h2.2⟩

/-- **C2.** `normalize_unit` is idempotent on the `(value_norm, unit_norm)`
pair: feeding the normalized value and unit of any input back into
`normalize_unit` (under the same property name and default-unit overrides)
returns the same normalized value and the same normalized unit. -/
theorem claim_C2_normalize_unit_idempotent (dflt : String → Option String)
    (name : String) (value : RawValue) (unit : Option String) :
    (normalize_unit dflt name
        (rawOfOpt (normalize_unit dflt name value unit).1)
        (normalize_unit dflt name value unit).2.1).1 =
      (normalize_unit dflt name value unit).1 ∧
    (normalize_unit dflt name
        (rawOfOpt (normalize_unit dflt name value unit).1)
        (normalize_unit dflt name value unit).2.1).2.1 =
      (normalize_unit dflt name value unit).2.1 :=
  buildNorm_idem (canon_kind name) (dflt (pyLower (pyStrip name)))
    (resolveValue value unit (dflt (pyLower (pyStrip name))))
    (resolveValue_resolved value unit (dflt (pyLower (pyStrip name))))
